import Mathlib

/-!
Verification development for the blackout-simulation core: the cascade
failure engine (`backend/app/services/cascade_service.py`) and the crew
dispatch scheduler (`backend/app/services/crew_dispatch_service.py`).

Modelling conventions:
* Python floats are idealised as rationals (`Rat`); `round(x, n)` is
  modelled by `pyRound` (round-half-to-even, as CPython does at ties).
* Python dicts are association lists in insertion order (`List (String × _)`);
  `d[k] = v` is `dictInsert` (update in place if the key exists, append
  otherwise), lookup is `List.lookup`.
* Python sets that the code only ever inserts into, measures with `len`,
  or sorts are duplicate-free lists in insertion order.
* Wall-clock timestamps are injected as explicit parameters (datetimes as
  rational minutes, the two ISO strings of the cascade result as opaque
  strings), since `datetime.now()` is an input of the environment.
* `random.random()` after `random.seed(42)` is a fixed stream of draws,
  modelled as an explicit stream parameter `rng : Nat → Rat`; the seed is a
  compile-time constant in the source, so the stream is the same for every
  invocation.
* `haversine_km` is built from transcendental functions (`sin`, `cos`,
  `asin`, `sqrt`); it is abstracted as an explicit distance-oracle
  parameter `DistFn`.  No claim under study depends on its values, only on
  its nonnegativity where stated.
-/

/-- Python `round` to an integer: round half to even (CPython semantics). -/
def pyRound (x : Rat) : Int :=
  if x - ⌊x⌋ < 1/2 then ⌊x⌋
  else if (1:Rat)/2 < x - ⌊x⌋ then ⌊x⌋ + 1
  else if ⌊x⌋ % 2 = 0 then ⌊x⌋ else ⌊x⌋ + 1

/-- Python `round(x, 1)`. -/
def round1 (x : Rat) : Rat := (pyRound (x * 10) : Rat) / 10

/-- Python `round(x, 2)`. -/
def round2 (x : Rat) : Rat := (pyRound (x * 100) : Rat) / 100

/-- Python `round(x, 4)`. -/
def round4 (x : Rat) : Rat := (pyRound (x * 10000) : Rat) / 10000

/-- Python `int(x)`: truncation toward zero. -/
def truncInt (x : Rat) : Int := if 0 ≤ x then ⌊x⌋ else -⌊-x⌋

/-- Python `sorted` on a list of strings (any permutation into
nondecreasing order; only length and multiset content matter to the
claims under study). -/
def pySorted (l : List String) : List String :=
  List.insertionSort (fun a b => a ≤ b) l

/-- One node of the grid snapshot, as loaded from the topology source:
`{id, lat, lon, base_load_mw, capacity_mw, weather_zone}` (voltage is not
read by the cascade engine). -/
structure GridNode where
  id : String
  lat : Rat
  lon : Rat
  base_load_mw : Rat
  capacity_mw : Rat
  weather_zone : String
deriving DecidableEq, Repr

/-- The immutable graph snapshot: nodes plus undirected edges used only
for adjacency. -/
structure Graph where
  nodes : List GridNode
  edges : List (String × String)
deriving DecidableEq, Repr

/-- NetworkX `g.neighbors(nid)`: every id connected to `nid` by some edge,
in edge-insertion order, without duplicates. -/
def Graph.neighbors (g : Graph) (nid : String) : List String :=
  (g.edges.filterMap (fun e =>
    if e.1 = nid then some e.2 else if e.2 = nid then some e.1 else none)).dedup

/-- Attribute lookup `g.nodes[nid]` on the snapshot. -/
def Graph.findNode (g : Graph) (nid : String) : Option GridNode :=
  g.nodes.find? (fun n => n.id == nid)

/-- Latitude of `g.nodes[nid]` (0 when absent; the engine only queries
ids present in the snapshot). -/
def latOf (g : Graph) (nid : String) : Rat :=
  match g.findNode nid with
  | some n => n.lat
  | none => 0

/-- Longitude of `g.nodes[nid]`. -/
def lonOf (g : Graph) (nid : String) : Rat :=
  match g.findNode nid with
  | some n => n.lon
  | none => 0

/-- Capacity of `g.nodes[nid]`. -/
def capOf (g : Graph) (nid : String) : Rat :=
  match g.findNode nid with
  | some n => n.capacity_mw
  | none => 0

/-- Step 0 of `run_cascade`: `current_load[n] = base_load_mw[n] *
demand_multipliers.get(n, 1.0)`. -/
def initLoad (g : Graph) (demand : List (String × Rat)) : String → Rat :=
  fun m =>
    match g.findNode m with
    | some n =>
      n.base_load_mw * (match List.lookup m demand with
                        | some v => v
                        | none => 1)
    | none => 0

/-- One reroute record of a cascade step (`from_id`, `to_id`, endpoint
coordinates and the MW moved, rounded to one decimal for display). -/
structure Reroute where
  from_id : String
  to_id : String
  from_lat : Rat
  from_lon : Rat
  to_lat : Rat
  to_lon : Rat
  load_mw : Rat
deriving DecidableEq, Repr

/-- A newly failed node as recorded in a cascade step. -/
structure FailureRecord where
  id : String
  lat : Rat
  lon : Rat
  load_mw : Rat
  capacity_mw : Rat
deriving DecidableEq, Repr

/-- One entry of the step sequence of a cascade result. -/
structure CascadeStep where
  step : Int
  new_failures : List FailureRecord
  reroutes : List Reroute
  total_failed : Nat
  total_load_shed_mw : Rat
deriving DecidableEq, Repr

/-- Final per-node classification of a cascade result. -/
structure NodeState where
  status : String
  current_load_mw : Rat
  capacity_mw : Rat
  load_pct : Rat
deriving DecidableEq, Repr

/-- The full return value of `run_cascade`. -/
structure CascadeResult where
  scenario : String
  forecast_hour : Int
  started_at : String
  completed_at : String
  steps : List CascadeStep
  total_failed_nodes : Nat
  total_nodes : Nat
  cascade_depth : Nat
  total_load_shed_mw : Rat
  failed_node_ids : List String
  final_node_states : List (String × NodeState)
deriving DecidableEq, Repr

/-- The overload scan of one cascade iteration: every non-failed node with
`current_load > capacity_mw * FAILURE_THRESHOLD` (threshold 1.05), in node
order. -/
def overloaded (g : Graph) (load : String → Rat) (failed : List String) : List String :=
  (g.nodes.filter (fun n =>
    decide (n.id ∉ failed) && decide (n.capacity_mw * (105/100) < load n.id))).map (fun n => n.id)

/-- Redistribution of one newly failed node `nid`: shed
`current_load * REDISTRIBUTION_FACTOR` (factor 0.70) and add an equal share
to every still-alive neighbour, appending one reroute record per
neighbour.  A node with no alive neighbours changes nothing. -/
def redistributeNode (g : Graph) (failed : List String)
    (acc : (String → Rat) × List Reroute) (nid : String) : (String → Rat) × List Reroute :=
  let load := acc.1
  let load_to_shed := load nid * (7/10)
  let alive := (g.neighbors nid).filter (fun nb => decide (nb ∉ failed))
  if alive.isEmpty then acc
  else
    let per := load_to_shed / (alive.length : Rat)
    alive.foldl (fun a nb =>
      (fun m => if m = nb then a.1 m + per else a.1 m,
       a.2 ++ [{ from_id := nid, to_id := nb,
                 from_lat := latOf g nid, from_lon := lonOf g nid,
                 to_lat := latOf g nb, to_lon := lonOf g nb,
                 load_mw := round1 per }])) acc

/-- One iteration of the cascade loop of `run_cascade`: mark the
overloaded nodes failed, redistribute each one's shed load, and append
the recorded step.  State is (current-load table, failed list in
insertion order, recorded steps). -/
def cascadeIter (g : Graph) (iteration : Nat)
    (st : (String → Rat) × List String × List CascadeStep) :
    (String → Rat) × List String × List CascadeStep :=
  let load := st.1
  let failed := st.2.1
  let steps := st.2.2
  let new_failures := overloaded g load failed
  let failed2 := failed ++ new_failures
  let rd := new_failures.foldl (redistributeNode g failed2) (load, [])
  let load2 := rd.1
  let total_shed := (failed2.map load2).sum
  let stepRec : CascadeStep :=
    { step := (iteration : Int),
      new_failures := new_failures.map (fun nid =>
        { id := nid, lat := latOf g nid, lon := lonOf g nid,
          load_mw := round1 (load2 nid), capacity_mw := round1 (capOf g nid) }),
      reroutes := rd.2,
      total_failed := failed2.length,
      total_load_shed_mw := round1 total_shed }
  (load2, failed2, steps ++ [stepRec])

/-- The iterative cascade loop of `run_cascade` (`MAX_CASCADE_ITERATIONS`
= 20 supplied as fuel).  Stops early when an iteration finds no new
failures, otherwise performs `cascadeIter` and continues. -/
def cascadeLoop (g : Graph) : Nat → Nat → ((String → Rat) × List String × List CascadeStep) →
    ((String → Rat) × List String × List CascadeStep)
  | 0, _, st => st
  | fuel + 1, iteration, st =>
    if (overloaded g st.1 st.2.1).isEmpty then st
    else cascadeLoop g fuel (iteration + 1) (cascadeIter g iteration st)

/-- Weather data for one zone (`run_cascade` reads only `temp_f`). -/
structure ZoneWeather where
  temp_f : Rat
deriving DecidableEq, Repr

/-- Cold-weather failure probability by temperature: 40 % below 20 °F,
15 % in [20, 32) °F, otherwise 0. -/
def coldFailProb (temp_f : Rat) : Rat :=
  if temp_f < 20 then 40/100
  else if temp_f < 32 then 15/100
  else 0

/-- The pre-cascade cold-weather stage: scan nodes in order; for each
node in a zone with a cold enough temperature, double the probability for
capacity above 500 and draw from the seeded stream (one draw per node with
positive probability, in scan order).  Failed nodes get load 0.  Returns
(failure list, updated loads, number of draws consumed). -/
def coldStep (weather : List (String × ZoneWeather)) (rng : Nat → Rat)
    (acc : List String × (String → Rat) × Nat) (n : GridNode) :
    List String × (String → Rat) × Nat :=
  match List.lookup n.weather_zone weather with
  | none => acc
  | some w =>
    let p := coldFailProb w.temp_f
    if 0 < p then
      let p2 := if (500:Rat) < n.capacity_mw then p * 2 else p
      if rng acc.2.2 < p2 then
        (acc.1 ++ [n.id], fun m => if m = n.id then 0 else acc.2.1 m, acc.2.2 + 1)
      else (acc.1, acc.2.1, acc.2.2 + 1)
    else acc

/-- The node scan of the cold-weather stage. -/
def coldStage (g : Graph) (weather : List (String × ZoneWeather)) (rng : Nat → Rat)
    (load0 : String → Rat) : List String × (String → Rat) × Nat :=
  g.nodes.foldl (coldStep weather rng) ([], load0, 0)

/-- The pre-cascade stage of `run_cascade`: runs only when a weather map
is supplied (Python truthiness: an absent map skips it; an empty map
yields no failures either way). -/
def preStage (g : Graph) (weather_by_zone : Option (List (String × ZoneWeather)))
    (rng : Nat → Rat) (load0 : String → Rat) : List String × (String → Rat) :=
  match weather_by_zone with
  | none => ([], load0)
  | some w =>
    let c := coldStage g w rng load0
    (c.1, c.2.1)

/-- The cascade engine `run_cascade`.  Pure inputs are the snapshot, the
demand multiplier map, the scenario label, the forecast hour, the optional
zone-weather map, and the fixed seeded random stream; `started_at` and
`completed_at` are the two wall-clock timestamps the implementation reads
with `datetime.now`. -/
def run_cascade (g : Graph) (demand : List (String × Rat)) (scenario_label : String)
    (forecast_hour : Int) (weather_by_zone : Option (List (String × ZoneWeather)))
    (rng : Nat → Rat) (started_at completed_at : String) : CascadeResult :=
  let load0 := initLoad g demand
  let pre := preStage g weather_by_zone rng load0
  let cold_weather_failures := pre.1
  let load1 := pre.2
  let steps0 : List CascadeStep :=
    if cold_weather_failures.isEmpty then []
    else [{ step := -1,
            new_failures := cold_weather_failures.map (fun nid =>
              { id := nid, lat := latOf g nid, lon := lonOf g nid,
                load_mw := 0, capacity_mw := round1 (capOf g nid) }),
            reroutes := [],
            total_failed := cold_weather_failures.length,
            total_load_shed_mw := 0 }]
  let fin := cascadeLoop g 20 0 (load1, cold_weather_failures, steps0)
  let loadF := fin.1
  let failedF := fin.2.1
  let stepsF := fin.2.2
  let final_states := g.nodes.map (fun n =>
    let load := loadF n.id
    let cap := n.capacity_mw
    let pct := if 0 < cap then load / cap * 100 else 0
    let status := if n.id ∈ failedF then "failed"
                  else if 80 < pct then "stressed"
                  else "nominal"
    (n.id, { status := status, current_load_mw := round1 load,
             capacity_mw := round1 cap, load_pct := round1 pct : NodeState }))
  let total_shed := (failedF.map loadF).sum
  { scenario := scenario_label,
    forecast_hour := forecast_hour,
    started_at := started_at,
    completed_at := completed_at,
    steps := stepsF,
    total_failed_nodes := failedF.length,
    total_nodes := g.nodes.length,
    cascade_depth := stepsF.length,
    total_load_shed_mw := round1 total_shed,
    failed_node_ids := pySorted failedF,
    final_node_states := final_states }

/-! ## Crew dispatch scheduler (`crew_dispatch_service.py`) -/

/-- Crew/assignment status enum (`CrewStatus`), including the legacy
alias `DEPLOYED` kept for static data. -/
inductive CrewStatus where
  | standby
  | dispatched
  | en_route
  | on_site
  | repairing
  | complete
  | deployed
deriving DecidableEq, Repr

/-- A repair crew of the roster. -/
structure Crew where
  crew_id : String
  name : String
  status : CrewStatus
  lat : Rat
  lon : Rat
  city : String
  specialty : String
  assigned_region : Option String
  eta_minutes : Option Int
deriving DecidableEq, Repr

/-- A failed node handed to the dispatch scheduler. -/
structure FailedNode where
  id : String
  lat : Rat
  lon : Rat
  load_mw : Rat
  capacity_mw : Rat
  voltage_kv : Rat
  weather_zone : String
  failure_type : String
deriving DecidableEq, Repr

/-- A recommended or confirmed crew → node assignment. -/
structure DispatchAssignment where
  assignment_id : String
  crew_id : String
  crew_name : String
  target_node_id : String
  target_lat : Rat
  target_lon : Rat
  distance_km : Rat
  eta_minutes : Int
  specialty_match : String
  match_score : Rat
  failure_type : String
  status : CrewStatus
  repair_minutes : Int
  dispatched_at : Option Rat
  arrived_at : Option Rat
  completed_at : Option Rat
deriving DecidableEq, Repr

/-- The recommendation envelope returned by `recommend_dispatch`. -/
structure DispatchRecommendation where
  assignments : List DispatchAssignment
  unassigned_nodes : List FailedNode
  total_crews_available : Nat
  total_failed_nodes : Nat
  avg_eta_minutes : Rat
  coverage_pct : Rat
deriving DecidableEq, Repr

/-- The module-level mutable dispatch state: the dicts `_assignments`,
`_crews`, `_failed_nodes`, the set `_repaired_nodes`, `_id_counter`, and
`_storm_mode`. -/
structure DispatchState where
  assignments : List (String × DispatchAssignment)
  crews : List (String × Crew)
  failed_nodes : List (String × FailedNode)
  repaired_nodes : List String
  id_counter : Nat
  storm_mode : Bool
deriving DecidableEq, Repr

/-- Python dict assignment `d[k] = v`: replace in place if the key is
present, append otherwise. -/
def dictInsert {α : Type} (l : List (String × α)) (k : String) (v : α) : List (String × α) :=
  match l with
  | [] => [(k, v)]
  | (k1, v1) :: rest =>
    if k1 = k then (k, v) :: rest else (k1, v1) :: dictInsert rest k v

/-- The abstract great-circle distance oracle standing in for
`haversine_km` (whose body is transcendental): arguments are
(lat1, lon1, lat2, lon2). -/
def DistFn : Type := Rat → Rat → Rat → Rat → Rat

/-- `eta_minutes(distance_km, storm)`: drive time at 80 km/h times the
storm multiplier 0.65, rounded, never below one minute. -/
def eta_minutes (distance_km : Rat) (storm : Bool) : Int :=
  let speed : Rat := 80 * (if storm then 65/100 else 1)
  max 1 (pyRound (distance_km / speed * 60))

/-- `classify_failure(voltage_kv, has_generator)`: generation first, then
the `VOLTAGE_SPECIALTY` thresholds 200 kV → transmission/line_repair,
69 kV → substation/substation, 0 kV → distribution/distribution, with the
same final fallback as the source. -/
def classify_failure (voltage_kv : Rat) (has_generator : Bool) : String × String :=
  if has_generator then ("generation", "generation")
  else if (200:Rat) ≤ voltage_kv then ("transmission", "line_repair")
  else if (69:Rat) ≤ voltage_kv then ("substation", "substation")
  else if (0:Rat) ≤ voltage_kv then ("distribution", "distribution")
  else ("distribution", "distribution")

/-- `ADJACENT_SKILLS.get(s, set())` as a list. -/
def adjacentSkills (s : String) : List String :=
  if s = "line_repair" then ["substation"]
  else if s = "substation" then ["line_repair", "distribution"]
  else if s = "distribution" then ["substation"]
  else if s = "generation" then []
  else []

/-- `specialty_match_score(crew_specialty, ideal_specialty)`: 2.0/"exact"
on equality, 1.0/"partial" when the ideal specialty is adjacent to the
crew's, 0.3/"mismatch" otherwise. -/
def specialty_match_score (crew_specialty ideal_specialty : String) : Rat × String :=
  if crew_specialty = ideal_specialty then (2, "exact")
  else if ideal_specialty ∈ adjacentSkills crew_specialty then (1, "partial")
  else (3/10, "mismatch")

/-- `REPAIR_TIME.get(failure_type, 90)` in minutes. -/
def repairTime (failure_type : String) : Int :=
  if failure_type = "transmission" then 180
  else if failure_type = "substation" then 120
  else if failure_type = "distribution" then 60
  else if failure_type = "generation" then 240
  else if failure_type = "unknown" then 90
  else 90

/-- Zero-pad a numeral to width four, as Python `f"{n:04d}"` does for
nonnegative `n`. -/
def pad4 (n : Nat) : String :=
  let s := toString n
  if 4 ≤ s.length then s else String.mk (List.replicate (4 - s.length) '0') ++ s

/-- The assignment id produced when `_id_counter` has just been bumped to
`n`: `f"DISP-{n:04d}"`. -/
def dispId (n : Nat) : String := "DISP-" ++ pad4 n

/-- `get_available_crews()`: crews in STANDBY or COMPLETE, in dict
order. -/
def get_available_crews (st : DispatchState) : List Crew :=
  (st.crews.map Prod.snd).filter
    (fun c => decide (c.status = CrewStatus.standby ∨ c.status = CrewStatus.complete))

/-- `get_unassigned_failed_nodes()`: failed nodes with no non-COMPLETE
assignment on them and not already repaired. -/
def get_unassigned_failed_nodes (st : DispatchState) : List FailedNode :=
  let assigned_targets := (st.assignments.map Prod.snd).filterMap
    (fun a => if a.status ≠ CrewStatus.complete then some a.target_node_id else none)
  (st.failed_nodes.map Prod.snd).filter
    (fun fn => decide (fn.id ∉ assigned_targets) && decide (fn.id ∉ st.repaired_nodes))

/-- The ideal specialty the source computes per node:
`classify_failure(node.voltage_kv, node.failure_type == "generation")`. -/
def idealOf (node : FailedNode) : String :=
  (classify_failure node.voltage_kv (node.failure_type = "generation")).2

/-- The score expression of `recommend_dispatch`:
`match_mult * max(0.5, min(5.0, load_mw / 500.0)) / (dist + 1.0) * 1000`. -/
def crewScore (distFn : DistFn) (ideal : String) (node : FailedNode) (crew : Crew) : Rat :=
  let d := distFn crew.lat crew.lon node.lat node.lon
  (specialty_match_score crew.specialty ideal).1
    * max (1/2) (min 5 (node.load_mw / 500)) / (d + 1) * 1000

/-- The running best choice of the inner crew loop of
`recommend_dispatch` (initially score −1 and no crew). -/
structure BestChoice where
  score : Rat
  crew : Option Crew
  dist : Rat
  eta : Int
  match_score : Rat
  match_label : String
deriving Repr

/-- One step of the inner crew loop: skip crews already claimed this
pass, otherwise compute distance, ETA and specialty match and keep the
entry when its score strictly beats the running best. -/
def considerCrew (distFn : DistFn) (storm : Bool) (used : List String) (ideal : String)
    (node : FailedNode) (b : BestChoice) (entry : String × Crew) : BestChoice :=
  if entry.1 ∈ used then b
  else
    let crew := entry.2
    let d := distFn crew.lat crew.lon node.lat node.lon
    let minutes := eta_minutes d storm
    let ms := specialty_match_score crew.specialty ideal
    let score := crewScore distFn ideal node crew
    if b.score < score then
      { score := score, crew := some crew, dist := d, eta := minutes,
        match_score := ms.1, match_label := ms.2 }
    else b

/-- The inner crew loop of `recommend_dispatch` over the availability
dict. -/
def selectBest (distFn : DistFn) (storm : Bool) (available : List (String × Crew))
    (used : List String) (node : FailedNode) : BestChoice :=
  available.foldl (considerCrew distFn storm used (idealOf node) node)
    { score := -1, crew := none, dist := 0, eta := 0, match_score := 0, match_label := "mismatch" }

/-- The outer greedy loop of `recommend_dispatch` over the
severity-ordered nodes, threading the claimed-crew set and `_id_counter`.
Returns (recommended assignments, leftover nodes, final counter). -/
def recommendLoop (distFn : DistFn) (storm : Bool) (available : List (String × Crew)) :
    List FailedNode → List String → Nat → List DispatchAssignment × List FailedNode × Nat
  | [], _, counter => ([], [], counter)
  | node :: rest, used, counter =>
    let b := selectBest distFn storm available used node
    match b.crew with
    | some c =>
      let a : DispatchAssignment :=
        { assignment_id := dispId (counter + 1),
          crew_id := c.crew_id, crew_name := c.name,
          target_node_id := node.id, target_lat := node.lat, target_lon := node.lon,
          distance_km := round1 b.dist, eta_minutes := b.eta,
          specialty_match := b.match_label, match_score := round2 b.score,
          failure_type := node.failure_type, status := CrewStatus.dispatched,
          repair_minutes := repairTime node.failure_type,
          dispatched_at := none, arrived_at := none, completed_at := none }
      let r := recommendLoop distFn storm available rest (used ++ [c.crew_id]) (counter + 1)
      (a :: r.1, r.2.1, r.2.2)
    | none =>
      let r := recommendLoop distFn storm available rest used counter
      (r.1, node :: r.2.1, r.2.2)

/-- `recommend_dispatch()`: the greedy planning pass.  Besides the
recommendation it returns the resulting module state, because the source
draws assignment ids from the module-level `_id_counter`. -/
def recommend_dispatch (distFn : DistFn) (st : DispatchState) :
    DispatchRecommendation × DispatchState :=
  let available := (get_available_crews st).map (fun c => (c.crew_id, c))
  let unassigned := get_unassigned_failed_nodes st
  let ordered := List.insertionSort (fun a b => b.load_mw ≤ a.load_mw) unassigned
  let r := recommendLoop distFn st.storm_mode available ordered [] st.id_counter
  let assignments := r.1
  let avg : Rat :=
    if assignments.isEmpty then 0
    else ((assignments.map (fun a => (a.eta_minutes : Rat))).sum) / (assignments.length : Rat)
  ({ assignments := assignments,
     unassigned_nodes := r.2.1,
     total_crews_available := available.length,
     total_failed_nodes := unassigned.length,
     avg_eta_minutes := round1 avg,
     coverage_pct := round2 ((assignments.length : Rat) / (max unassigned.length 1 : Nat)) },
   { st with id_counter := r.2.2 })

/-- `dispatch_crew(crew_id, target_node_id)`: validate the crew exists
and is in STANDBY, COMPLETE or DEPLOYED, validate the target is a tracked
failed node, then create an EN_ROUTE assignment stamped `dispatched_at =
now` and move the crew to EN_ROUTE.  Errors carry the message and leave
the state untouched. -/
def dispatch_crew (distFn : DistFn) (st : DispatchState) (now : Rat)
    (crew_id target_node_id : String) : Except String (DispatchAssignment × DispatchState) :=
  match List.lookup crew_id st.crews with
  | none => Except.error ("Unknown crew: " ++ crew_id)
  | some crew =>
    if crew.status = CrewStatus.standby ∨ crew.status = CrewStatus.complete
        ∨ crew.status = CrewStatus.deployed then
      match List.lookup target_node_id st.failed_nodes with
      | none => Except.error ("Unknown or non-failed node: " ++ target_node_id)
      | some node =>
        let d := distFn crew.lat crew.lon node.lat node.lon
        let minutes := eta_minutes d st.storm_mode
        let ideal := (classify_failure node.voltage_kv (node.failure_type = "generation")).2
        let ms := specialty_match_score crew.specialty ideal
        let a : DispatchAssignment :=
          { assignment_id := dispId (st.id_counter + 1),
            crew_id := crew_id, crew_name := crew.name,
            target_node_id := target_node_id, target_lat := node.lat, target_lon := node.lon,
            distance_km := round1 d, eta_minutes := minutes,
            specialty_match := ms.2, match_score := round2 ms.1,
            failure_type := node.failure_type, status := CrewStatus.en_route,
            repair_minutes := repairTime node.failure_type,
            dispatched_at := some now, arrived_at := none, completed_at := none }
        let crew2 : Crew :=
          { crew with status := CrewStatus.en_route,
                      assigned_region := some target_node_id,
                      eta_minutes := some minutes }
        Except.ok (a, { st with
          id_counter := st.id_counter + 1,
          crews := dictInsert st.crews crew_id crew2,
          assignments := dictInsert st.assignments a.assignment_id a })
    else
      Except.error ("Crew " ++ crew_id ++ " is not available")

/-- Apply one `dispatch_crew` call (timestamp, crew id, node id); a raised
invalid-argument error leaves the state unchanged. -/
def applyDispatch (distFn : DistFn) (st : DispatchState) (call : Rat × String × String) :
    DispatchState :=
  match dispatch_crew distFn st call.1 call.2.1 call.2.2 with
  | Except.ok r => r.2
  | Except.error _ => st

/-- Run a sequence of `dispatch_crew` calls, each succeeding or raising. -/
def runDispatches (distFn : DistFn) (st0 : DispatchState)
    (calls : List (Rat × String × String)) : DispatchState :=
  calls.foldl (applyDispatch distFn) st0

/-- The per-assignment body of `tick()` at wall-clock time `now` (rational
minutes): returns the updated assignment, the updated crew, and whether
the target just entered the repaired set. -/
def tickOne (now : Rat) (a : DispatchAssignment) (crew : Crew) :
    DispatchAssignment × Crew × Bool :=
  if a.status = CrewStatus.dispatched ∨ a.status = CrewStatus.en_route then
    match a.dispatched_at with
    | none => (a, crew, false)
    | some t0 =>
      let elapsed := now - t0
      let remaining : Int := max 0 (a.eta_minutes - truncInt elapsed)
      if remaining ≤ 0 then
        ({ a with status := CrewStatus.on_site, arrived_at := some now },
         { crew with status := CrewStatus.on_site, eta_minutes := some 0,
                     lat := a.target_lat, lon := a.target_lon },
         false)
      else
        let progress := elapsed / (max a.eta_minutes 1 : Int)
        let progress := min 1 (max 0 progress)
        ( a,
          { crew with eta_minutes := some remaining,
                      lat := round4 (crew.lat + (a.target_lat - crew.lat) * progress),
                      lon := round4 (crew.lon + (a.target_lon - crew.lon) * progress) },
          false)
  else if a.status = CrewStatus.on_site then
    ({ a with status := CrewStatus.repairing },
     { crew with status := CrewStatus.repairing },
     false)
  else if a.status = CrewStatus.repairing then
    match a.arrived_at with
    | none => (a, crew, false)
    | some t1 =>
      if (a.repair_minutes : Rat) ≤ now - t1 then
        ({ a with status := CrewStatus.complete, completed_at := some now },
         { crew with status := CrewStatus.complete },
         true)
      else (a, crew, false)
  else (a, crew, false)

/-- Python `set.add`. -/
def setAdd (l : List String) (x : String) : List String :=
  if x ∈ l then l else l ++ [x]

/-- The state-mutating portion of `tick()`: walk the assignment dict in
order, each step reading the current crew dict (assignments missing their
crew are skipped), and accumulate repaired targets.  The read-only
response envelope (`DispatchStatusResponse`) is not modelled, no claim
depends on it. -/
def tickState (st : DispatchState) (now : Rat) : DispatchState :=
  let r := st.assignments.foldl
    (fun (acc : List (String × DispatchAssignment) × List (String × Crew) × List String) p =>
      match List.lookup p.2.crew_id acc.2.1 with
      | none => (acc.1 ++ [p], acc.2.1, acc.2.2)
      | some crew =>
        let t := tickOne now p.2 crew
        (acc.1 ++ [(p.1, t.1)],
         dictInsert acc.2.1 p.2.crew_id t.2.1,
         if t.2.2 then setAdd acc.2.2 p.2.target_node_id else acc.2.2))
    ([], st.crews, st.repaired_nodes)
  { st with assignments := r.1, crews := r.2.1, repaired_nodes := r.2.2 }

/-! ## Helper lemmas -/

theorem cascadeIter_failed (g : Graph) (it : Nat) (st : (String → Rat) × List String × List CascadeStep) :
    (cascadeIter g it st).2.1 = st.2.1 ++ overloaded g st.1 st.2.1 := rfl

theorem cascadeIter_steps_length (g : Graph) (it : Nat)
    (st : (String → Rat) × List String × List CascadeStep) :
    (cascadeIter g it st).2.2.length = st.2.2.length + 1 := by
  simp [cascadeIter]

theorem cascadeIter_last_step_nonneg (g : Graph) (it : Nat)
    (st : (String → Rat) × List String × List CascadeStep) :
    (cascadeIter g it st).2.2.filter (fun s => decide (s.step < 0))
      = st.2.2.filter (fun s => decide (s.step < 0)) := by
  have hge : ¬ ((it : Int) < 0) := Int.not_lt.mpr (Int.natCast_nonneg it)
  simp [cascadeIter, List.filter_append, hge]

theorem cascadeLoop_steps_length (g : Graph) :
    ∀ (fuel it : Nat) st, ((cascadeLoop g fuel it st).2.2).length ≤ st.2.2.length + fuel := by
  intro fuel
  induction fuel with
  | zero => intro it st; simp [cascadeLoop]
  | succ n ih =>
    intro it st
    rw [cascadeLoop]
    by_cases h : (overloaded g st.1 st.2.1).isEmpty
    · simp [h]
    · simp only [h, Bool.false_eq_true, if_false]
      refine le_trans (ih _ _) ?_
      rw [cascadeIter_steps_length]
      omega

theorem cascadeLoop_steps_neg_filter (g : Graph) :
    ∀ (fuel it : Nat) st,
      ((cascadeLoop g fuel it st).2.2).filter (fun s => decide (s.step < 0)) =
        st.2.2.filter (fun s => decide (s.step < 0)) := by
  intro fuel
  induction fuel with
  | zero => intro it st; simp [cascadeLoop]
  | succ n ih =>
    intro it st
    rw [cascadeLoop]
    by_cases h : (overloaded g st.1 st.2.1).isEmpty
    · simp [h]
    · simp only [h, Bool.false_eq_true, if_false]
      rw [ih, cascadeIter_last_step_nonneg]

theorem cascadeLoop_steps_nonneg_filter (g : Graph) :
    ∀ (fuel it : Nat) st,
      (((cascadeLoop g fuel it st).2.2).filter (fun s => decide (0 ≤ s.step))).length ≤
        (st.2.2.filter (fun s => decide (0 ≤ s.step))).length + fuel := by
  intro fuel
  induction fuel with
  | zero => intro it st; simp [cascadeLoop]
  | succ n ih =>
    intro it st
    rw [cascadeLoop]
    by_cases h : (overloaded g st.1 st.2.1).isEmpty
    · simp [h]
    · simp only [h, Bool.false_eq_true, if_false]
      refine le_trans (ih _ _) ?_
      have : ((cascadeIter g it st).2.2.filter (fun s => decide (0 ≤ s.step))).length ≤
          (st.2.2.filter (fun s => decide (0 ≤ s.step))).length + 1 := by
        simp [cascadeIter, List.filter_append]
      omega

/-! ## C1: determinism of `run_cascade` -/

/-- Claim C1 as stated: for fixed pure inputs (and the fixed seeded
stream), two invocations of `run_cascade` — which may read different
wall-clock timestamps — produce identical results in every field. -/
def claimC1 : Prop :=
  ∀ (g : Graph) (demand : List (String × Rat)) (sl : String) (fh : Int)
    (w : Option (List (String × ZoneWeather))) (rng : Nat → Rat)
    (t1 t2 t1' t2' : String),
    run_cascade g demand sl fh w rng t1 t2 = run_cascade g demand sl fh w rng t1' t2'

/-- C1 counterexample: two invocations with different wall-clock readings
differ in the `started_at` field, so the result is not byte-identical in
every field of the returned dict. -/
theorem c1_counterexample : ¬ claimC1 := by
  intro h
  have h2 := congrArg CascadeResult.started_at
    (h ⟨[], []⟩ [] "uri_2021" 36 none (fun _ => 0) "A" "B" "C" "D")
  simp [run_cascade] at h2

/-- C1 (amended): for fixed inputs (snapshot, multipliers, weather, and
the fixed RNG seed), repeated invocations of `run_cascade` agree on every
field of the result except the two wall-clock timestamps `started_at` and
`completed_at`, which reflect the time of the call. -/
theorem c1_deterministic_modulo_timestamps
    (g : Graph) (demand : List (String × Rat)) (sl : String) (fh : Int)
    (w : Option (List (String × ZoneWeather))) (rng : Nat → Rat)
    (t1 t2 t1' t2' : String) :
    (run_cascade g demand sl fh w rng t1 t2).scenario
      = (run_cascade g demand sl fh w rng t1' t2').scenario ∧
    (run_cascade g demand sl fh w rng t1 t2).forecast_hour
      = (run_cascade g demand sl fh w rng t1' t2').forecast_hour ∧
    (run_cascade g demand sl fh w rng t1 t2).steps
      = (run_cascade g demand sl fh w rng t1' t2').steps ∧
    (run_cascade g demand sl fh w rng t1 t2).total_failed_nodes
      = (run_cascade g demand sl fh w rng t1' t2').total_failed_nodes ∧
    (run_cascade g demand sl fh w rng t1 t2).total_nodes
      = (run_cascade g demand sl fh w rng t1' t2').total_nodes ∧
    (run_cascade g demand sl fh w rng t1 t2).cascade_depth
      = (run_cascade g demand sl fh w rng t1' t2').cascade_depth ∧
    (run_cascade g demand sl fh w rng t1 t2).total_load_shed_mw
      = (run_cascade g demand sl fh w rng t1' t2').total_load_shed_mw ∧
    (run_cascade g demand sl fh w rng t1 t2).failed_node_ids
      = (run_cascade g demand sl fh w rng t1' t2').failed_node_ids ∧
    (run_cascade g demand sl fh w rng t1 t2).final_node_states
      = (run_cascade g demand sl fh w rng t1' t2').final_node_states :=
  ⟨rfl, rfl, rfl, rfl, rfl, rfl, rfl, rfl, rfl⟩

/-! ## C5: termination and step-count bounds of `run_cascade` -/

/-- C5: `run_cascade` is a total function (it terminates on every input,
by construction of the fuelled loop); in its result `cascade_depth` is the
length of the step sequence, at most one recorded step is the pre-cascade
weather stage (index −1), at most 20 steps come from redistribution
iterations (index ≥ 0), and `cascade_depth` never exceeds 21. -/
theorem c5_termination_depth_bound
    (g : Graph) (demand : List (String × Rat)) (sl : String) (fh : Int)
    (w : Option (List (String × ZoneWeather))) (rng : Nat → Rat) (t1 t2 : String) :
    (run_cascade g demand sl fh w rng t1 t2).cascade_depth
      = (run_cascade g demand sl fh w rng t1 t2).steps.length ∧
    ((run_cascade g demand sl fh w rng t1 t2).steps.filter
      (fun s => decide (s.step < 0))).length ≤ 1 ∧
    ((run_cascade g demand sl fh w rng t1 t2).steps.filter
      (fun s => decide (0 ≤ s.step))).length ≤ 20 ∧
    (run_cascade g demand sl fh w rng t1 t2).cascade_depth ≤ 21 := by
  refine ⟨rfl, ?_, ?_, ?_⟩
  · simp only [run_cascade]
    rw [cascadeLoop_steps_neg_filter]
    by_cases h : (preStage g w rng (initLoad g demand)).1.isEmpty
    · simp [h]
    · simp only [h, Bool.false_eq_true, if_false]
      simp [List.length_filter_le]
  · simp only [run_cascade]
    refine le_trans (cascadeLoop_steps_nonneg_filter g 20 0 _) ?_
    by_cases h : (preStage g w rng (initLoad g demand)).1.isEmpty
    · simp [h]
    · simp only [h, Bool.false_eq_true, if_false]
      simp
  · simp only [run_cascade]
    refine le_trans (cascadeLoop_steps_length g 20 0 _) ?_
    by_cases h : (preStage g w rng (initLoad g demand)).1.isEmpty
    · simp [h]
    · simp only [h, Bool.false_eq_true, if_false]
      simp

/-! ## C10: every ETA is at least one minute -/

theorem one_le_eta_minutes (d : Rat) (storm : Bool) : 1 ≤ eta_minutes d storm :=
  le_max_left _ _

theorem foldl_considerCrew_eta (distFn : DistFn) (storm : Bool) (used : List String)
    (ideal : String) (node : FailedNode) :
    ∀ (L : List (String × Crew)) (b : BestChoice),
      (∀ c, b.crew = some c → 1 ≤ b.eta) →
      ∀ c, (L.foldl (considerCrew distFn storm used ideal node) b).crew = some c →
        1 ≤ (L.foldl (considerCrew distFn storm used ideal node) b).eta := by
  intro L
  induction L with
  | nil => intro b hb; exact hb
  | cons e rest ih =>
    intro b hb
    simp only [List.foldl_cons]
    apply ih
    simp only [considerCrew]
    split_ifs with h1 h2
    · exact hb
    · intro c _
      exact one_le_eta_minutes _ _
    · exact hb

theorem selectBest_eta (distFn : DistFn) (storm : Bool) (available : List (String × Crew))
    (used : List String) (node : FailedNode) :
    ∀ c, (selectBest distFn storm available used node).crew = some c →
      1 ≤ (selectBest distFn storm available used node).eta := by
  apply foldl_considerCrew_eta
  intro c hc
  exact absurd hc (by simp)

theorem recommendLoop_eta (distFn : DistFn) (storm : Bool) (available : List (String × Crew)) :
    ∀ (nodes : List FailedNode) (used : List String) (counter : Nat) a,
      a ∈ (recommendLoop distFn storm available nodes used counter).1 →
      1 ≤ a.eta_minutes := by
  intro nodes
  induction nodes with
  | nil => intro used counter a ha; simp [recommendLoop] at ha
  | cons node rest ih =>
    intro used counter a ha
    rw [recommendLoop] at ha
    cases hb : (selectBest distFn storm available used node).crew with
    | some c =>
      rw [hb] at ha
      simp only [List.mem_cons] at ha
      rcases ha with ha | ha
      · rw [ha]
        exact selectBest_eta distFn storm available used node c hb
      · exact ih _ _ _ ha
    | none =>
      rw [hb] at ha
      exact ih _ _ _ ha

/-- C10: `eta_minutes` returns at least 1 for every input (distance 0
included); consequently every assignment created by `dispatch_crew` or
recommended by `recommend_dispatch` carries `eta_minutes ≥ 1`, and a crew
ticked at the very instant of its dispatch is still EN_ROUTE, never
immediately ON_SITE — even when dispatched to its own location. -/
theorem c10_eta_minutes_at_least_one :
    (∀ (d : Rat) (storm : Bool), 1 ≤ eta_minutes d storm) ∧
    (∀ (distFn : DistFn) (st : DispatchState) (now : Rat) (cid nid : String)
       (a : DispatchAssignment) (st' : DispatchState),
       dispatch_crew distFn st now cid nid = Except.ok (a, st') → 1 ≤ a.eta_minutes) ∧
    (∀ (distFn : DistFn) (st : DispatchState) (a : DispatchAssignment),
       a ∈ (recommend_dispatch distFn st).1.assignments → 1 ≤ a.eta_minutes) ∧
    (∀ (now : Rat) (a : DispatchAssignment) (crew : Crew),
       a.status = CrewStatus.en_route → a.dispatched_at = some now →
       1 ≤ a.eta_minutes → ((tickOne now a crew).1).status = CrewStatus.en_route) := by
  refine ⟨one_le_eta_minutes, ?_, ?_, ?_⟩
  · intro distFn st now cid nid a st' h
    cases hc : List.lookup cid st.crews with
    | none =>
      simp only [dispatch_crew, hc] at h
      exact Except.noConfusion h
    | some crew =>
      simp only [dispatch_crew, hc] at h
      by_cases hs : crew.status = CrewStatus.standby ∨ crew.status = CrewStatus.complete
          ∨ crew.status = CrewStatus.deployed
      · rw [if_pos hs] at h
        cases hn : List.lookup nid st.failed_nodes with
        | none =>
          simp only [hn] at h
          exact Except.noConfusion h
        | some node =>
          simp only [hn, Except.ok.injEq, Prod.mk.injEq] at h
          rw [← h.1]
          exact one_le_eta_minutes _ _
      · rw [if_neg hs] at h
        exact absurd h (by simp)
  · intro distFn st a ha
    exact recommendLoop_eta distFn st.storm_mode _ _ [] st.id_counter a ha
  · intro now a crew h1 h2 he
    have hrem : ¬ (max 0 (a.eta_minutes - truncInt (now - now)) ≤ 0) := by
      simp only [sub_self, truncInt, le_refl, if_pos, Int.floor_zero]
      omega
    simp only [tickOne, h1, h2, or_true, if_pos, if_true]
    rw [if_neg hrem]
    simp [h1]

/-! ## C4: load conservation under redistribution -/

theorem foldl_pointwise_add (per : Rat) (rr : String → Reroute) :
    ∀ (L : List String) (f : String → Rat) (rs : List Reroute),
      (L.foldl (fun (a : (String → Rat) × List Reroute) nb =>
        ((fun m => if m = nb then a.1 m + per else a.1 m), a.2 ++ [rr nb])) (f, rs)).1 =
      L.foldl (fun f nb => (fun m => if m = nb then f m + per else f m)) f := by
  intro L
  induction L with
  | nil => intro f rs; rfl
  | cons a L ih => intro f rs; simp only [List.foldl_cons]; exact ih _ _

theorem foldl_add_per (per : Rat) :
    ∀ (L : List String) (f : String → Rat), L.Nodup →
      (∀ x ∈ L, L.foldl (fun f nb => (fun m => if m = nb then f m + per else f m)) f x = f x + per) ∧
      (∀ x, x ∉ L → L.foldl (fun f nb => (fun m => if m = nb then f m + per else f m)) f x = f x) := by
  intro L
  induction L with
  | nil => intro f _; exact ⟨by simp, by intro x _; rfl⟩
  | cons a L ih =>
    intro f hnd
    have hna : a ∉ L := (List.nodup_cons.mp hnd).1
    have hL : L.Nodup := (List.nodup_cons.mp hnd).2
    have ihf := ih (fun m => if m = a then f m + per else f m) hL
    constructor
    · intro x hx
      rcases List.mem_cons.mp hx with hx | hx
      · subst hx
        simp only [List.foldl_cons]
        rw [ihf.2 x hna]
        simp
      · simp only [List.foldl_cons]
        rw [ihf.1 x hx]
        have hxa : x ≠ a := fun he => hna (he ▸ hx)
        simp [hxa]
    · intro x hx
      have hxa : x ≠ a := fun he => hx (he ▸ List.mem_cons_self a L)
      have hxL : x ∉ L := fun hm => hx (List.mem_cons_of_mem a hm)
      simp only [List.foldl_cons]
      rw [ihf.2 x hxL]
      simp [hxa]

/-- C4: when a newly failed node is redistributed, with `alive` its
still-alive (non-failed) neighbours at that moment: if `alive` is empty
the node adds no load to any node — the whole load table is unchanged
and the shed load leaves the system; otherwise every alive neighbour
gains exactly `(0.70 × current load) / |alive|`, no other node's load
changes, and the amounts added across the alive neighbours sum to
exactly 70 % of the node's current load at the moment of redistribution.
(The cascade loop applies `redistributeNode` to each newly failed node
in turn with the failed set already containing all of this iteration's
failures; quantifying over the load table covers each such moment.) -/
theorem c4_redistribution_conserves_70_percent
    (g : Graph) (failed : List String) (load : String → Rat) (rs : List Reroute) (nid : String) :
    (((g.neighbors nid).filter (fun nb => decide (nb ∉ failed))) = [] →
       (redistributeNode g failed (load, rs) nid).1 = load) ∧
    (((g.neighbors nid).filter (fun nb => decide (nb ∉ failed))) ≠ [] →
      (∀ nb ∈ (g.neighbors nid).filter (fun nb => decide (nb ∉ failed)),
         (redistributeNode g failed (load, rs) nid).1 nb
           = load nb + (load nid * (7/10)) /
               (((g.neighbors nid).filter (fun nb => decide (nb ∉ failed))).length : Rat)) ∧
      (∀ m, m ∉ (g.neighbors nid).filter (fun nb => decide (nb ∉ failed)) →
         (redistributeNode g failed (load, rs) nid).1 m = load m) ∧
      ((((g.neighbors nid).filter (fun nb => decide (nb ∉ failed))).map
          (fun nb => (redistributeNode g failed (load, rs) nid).1 nb - load nb)).sum
        = (7/10) * load nid)) := by
  constructor
  · intro hempty
    simp only [redistributeNode, hempty, List.isEmpty_nil, if_true]
  · intro halive
    set alive := (g.neighbors nid).filter (fun nb => decide (nb ∉ failed)) with halive_def
    have hnd : alive.Nodup := ((g.edges.filterMap _).nodup_dedup).filter _
    have hne : alive.isEmpty = false := by
      cases halive' : alive with
      | nil => exact absurd halive' halive
      | cons a l => rfl
    have hlen : (alive.length : Rat) ≠ 0 := by
      have : 0 < alive.length := List.length_pos.mpr halive
      exact_mod_cast Nat.pos_iff_ne_zero.mp this
    have hred : (redistributeNode g failed (load, rs) nid).1 =
        alive.foldl (fun f nb => (fun m => if m = nb then f m + (load nid * (7/10)) / (alive.length : Rat) else f m)) load := by
      simp only [redistributeNode, ← halive_def, hne, Bool.false_eq_true, if_false]
      exact foldl_pointwise_add _ (fun nb =>
        { from_id := nid, to_id := nb,
          from_lat := latOf g nid, from_lon := lonOf g nid,
          to_lat := latOf g nb, to_lon := lonOf g nb,
          load_mw := round1 ((load nid * (7/10)) / (alive.length : Rat)) }) alive load rs
    have hmain := foldl_add_per ((load nid * (7/10)) / (alive.length : Rat)) alive load hnd
    refine ⟨?_, ?_, ?_⟩
    · intro nb hnb
      rw [hred]
      exact hmain.1 nb hnb
    · intro m hm
      rw [hred]
      exact hmain.2 m hm
    · have hmap : alive.map (fun nb => (redistributeNode g failed (load, rs) nid).1 nb - load nb)
          = alive.map (fun _ => (load nid * (7/10)) / (alive.length : Rat)) := by
        apply List.map_congr_left
        intro nb hnb
        rw [hred, hmain.1 nb hnb]
        ring
      rw [hmap, List.map_const', List.sum_replicate, nsmul_eq_mul]
      rw [mul_comm, div_mul_cancel₀ _ hlen]
      ring

/-- C4 witness: two concrete redistributions.  Node `B`, whose only
neighbour `A` has already failed, adds no load to any node (the whole
load table is unchanged); node `A` carrying 100 MW with alive neighbours
`B`, `C` adds 35 MW to each (70 MW total, 70 % of 100) and leaves `D`
untouched. -/
theorem c4_witness :
    ((((Graph.mk [] [("A","B"),("A","C")]).neighbors "B").filter
        (fun nb => decide (nb ∉ ["A", "B"]))) = []) ∧
    (redistributeNode (Graph.mk [] [("A","B"),("A","C")]) ["A", "B"]
        ((fun m => if m = "A" then 100 else 10), []) "B").1
      = (fun m => if m = "A" then 100 else 10) ∧
    (((Graph.mk [] [("A","B"),("A","C")]).neighbors "A").filter
        (fun nb => decide (nb ∉ ["A"])) ≠ []) ∧
    (redistributeNode (Graph.mk [] [("A","B"),("A","C")]) ["A"]
        ((fun m => if m = "A" then 100 else 10), []) "A").1 "B" = 45 ∧
    (redistributeNode (Graph.mk [] [("A","B"),("A","C")]) ["A"]
        ((fun m => if m = "A" then 100 else 10), []) "A").1 "D" = 10 := by
  have hBe : (((Graph.mk [] [("A","B"),("A","C")]).neighbors "B").filter
      (fun nb => decide (nb ∉ ["A", "B"]))) = [] := by decide
  have hAl : ((Graph.mk [] [("A","B"),("A","C")]).neighbors "A").filter
      (fun nb => decide (nb ∉ ["A"])) = ["B", "C"] := by decide
  have hne : ((Graph.mk [] [("A","B"),("A","C")]).neighbors "A").filter
      (fun nb => decide (nb ∉ ["A"])) ≠ [] := by
    rw [hAl]
    simp
  have horphan := (c4_redistribution_conserves_70_percent (Graph.mk [] [("A","B"),("A","C")])
    ["A", "B"] (fun m => if m = "A" then 100 else 10) [] "B").1 hBe
  have h := (c4_redistribution_conserves_70_percent (Graph.mk [] [("A","B"),("A","C")]) ["A"]
    (fun m => if m = "A" then 100 else 10) [] "A").2 hne
  rw [hAl] at h
  refine ⟨hBe, horphan, hne, ?_, ?_⟩
  · have hb := h.1 "B" (by simp)
    rw [hb]
    norm_num [show ("B":String) ≠ "A" by decide]
  · have hd := h.2.1 "D" (by simp)
    rw [hd]
    norm_num [show ("D":String) ≠ "A" by decide]

/-! ## C6: the failed set only grows; final counts agree -/

theorem cascadeLoop_failed_extends (g : Graph) :
    ∀ (fuel it : Nat) st, ∃ ext, (cascadeLoop g fuel it st).2.1 = st.2.1 ++ ext := by
  intro fuel
  induction fuel with
  | zero => intro it st; exact ⟨[], by simp [cascadeLoop]⟩
  | succ n ih =>
    intro it st
    rw [cascadeLoop]
    by_cases h : (overloaded g st.1 st.2.1).isEmpty
    · exact ⟨[], by simp [h]⟩
    · simp only [h, Bool.false_eq_true, if_false]
      obtain ⟨ext2, hext2⟩ := ih (it + 1) (cascadeIter g it st)
      refine ⟨overloaded g st.1 st.2.1 ++ ext2, ?_⟩
      rw [hext2, cascadeIter_failed]
      simp

theorem overloaded_not_failed (g : Graph) (load : String → Rat) (failed : List String) :
    ∀ x ∈ overloaded g load failed, x ∉ failed := by
  intro x hx
  simp only [overloaded, List.mem_map, List.mem_filter] at hx
  obtain ⟨n, ⟨_, hcond⟩, hid⟩ := hx
  rw [Bool.and_eq_true, decide_eq_true_eq, decide_eq_true_eq] at hcond
  rw [← hid]
  exact hcond.1

theorem overloaded_nodup (g : Graph) (hn : (g.nodes.map (fun n => n.id)).Nodup)
    (load : String → Rat) (failed : List String) : (overloaded g load failed).Nodup := by
  have hs : (overloaded g load failed).Sublist (g.nodes.map (fun n => n.id)) :=
    (List.filter_sublist _).map _
  exact hn.sublist hs

theorem cascadeLoop_failed_nodup (g : Graph) (hn : (g.nodes.map (fun n => n.id)).Nodup) :
    ∀ (fuel it : Nat) st, st.2.1.Nodup → ((cascadeLoop g fuel it st).2.1).Nodup := by
  intro fuel
  induction fuel with
  | zero => intro it st h; simpa [cascadeLoop] using h
  | succ n ih =>
    intro it st h
    rw [cascadeLoop]
    by_cases he : (overloaded g st.1 st.2.1).isEmpty
    · simpa [he] using h
    · simp only [he, Bool.false_eq_true, if_false]
      apply ih
      rw [cascadeIter_failed, List.nodup_append]
      exact ⟨h, overloaded_nodup g hn st.1 st.2.1,
        fun x hx hx2 => overloaded_not_failed g st.1 st.2.1 x hx2 hx⟩

theorem coldStep_failed_cases (w : List (String × ZoneWeather)) (rng : Nat → Rat)
    (acc : List String × (String → Rat) × Nat) (n : GridNode) :
    (coldStep w rng acc n).1 = acc.1 ∨ (coldStep w rng acc n).1 = acc.1 ++ [n.id] := by
  unfold coldStep
  cases List.lookup n.weather_zone w with
  | none => exact Or.inl rfl
  | some zw =>
    simp only
    split_ifs
    all_goals first
      | exact Or.inl rfl
      | exact Or.inr rfl

theorem foldl_coldStep_extends (w : List (String × ZoneWeather)) (rng : Nat → Rat) :
    ∀ (l : List GridNode) (acc : List String × (String → Rat) × Nat),
      ∃ ext, (l.foldl (coldStep w rng) acc).1 = acc.1 ++ ext ∧
        ext.Sublist (l.map (fun n => n.id)) := by
  intro l
  induction l with
  | nil => intro acc; exact ⟨[], by simp⟩
  | cons n l ih =>
    intro acc
    obtain ⟨ext2, h2, hs2⟩ := ih (coldStep w rng acc n)
    simp only [List.foldl_cons]
    rcases coldStep_failed_cases w rng acc n with hc | hc
    · exact ⟨ext2, by rw [h2, hc], hs2.cons n.id⟩
    · refine ⟨n.id :: ext2, ?_, hs2.cons₂ n.id⟩
      rw [h2, hc]
      simp

theorem preStage_failed_nodup (g : Graph) (hn : (g.nodes.map (fun n => n.id)).Nodup)
    (w : Option (List (String × ZoneWeather))) (rng : Nat → Rat) (load0 : String → Rat) :
    (preStage g w rng load0).1.Nodup := by
  cases w with
  | none => simp [preStage]
  | some wz =>
    simp only [preStage]
    obtain ⟨ext, he, hs⟩ := foldl_coldStep_extends wz rng g.nodes ([], load0, 0)
    unfold coldStage
    rw [he]
    simpa using hn.sublist hs

/-- C6: within one run the failed set only grows — the failed list on
entry to the loop is always a prefix of the failed list it produces — and
in the final result `total_failed_nodes` equals both the length of
`failed_node_ids` and the cardinality of the final failed set. -/
theorem c6_failed_monotone_counts_agree
    (g : Graph) (demand : List (String × Rat)) (sl : String) (fh : Int)
    (w : Option (List (String × ZoneWeather))) (rng : Nat → Rat) (t1 t2 : String)
    (hn : (g.nodes.map (fun n => n.id)).Nodup) :
    (∀ (fuel it : Nat) st, ∃ ext, (cascadeLoop g fuel it st).2.1 = st.2.1 ++ ext) ∧
    (run_cascade g demand sl fh w rng t1 t2).total_failed_nodes
      = (run_cascade g demand sl fh w rng t1 t2).failed_node_ids.length ∧
    (run_cascade g demand sl fh w rng t1 t2).failed_node_ids.toFinset.card
      = (run_cascade g demand sl fh w rng t1 t2).total_failed_nodes := by
  refine ⟨cascadeLoop_failed_extends g, ?_, ?_⟩
  · simp only [run_cascade, pySorted]
    rw [List.length_insertionSort]
  · simp only [run_cascade, pySorted]
    rw [List.toFinset_eq_of_perm _ _ (List.perm_insertionSort _ _)]
    exact List.toFinset_card_of_nodup
      (cascadeLoop_failed_nodup g hn 20 0 _ (preStage_failed_nodup g hn w rng _))

/-! ## C9: `recommend_dispatch` and session state -/

theorem recommendLoop_counter (distFn : DistFn) (storm : Bool) (available : List (String × Crew)) :
    ∀ (nodes : List FailedNode) (used : List String) (counter : Nat),
      (recommendLoop distFn storm available nodes used counter).2.2
        = counter + (recommendLoop distFn storm available nodes used counter).1.length := by
  intro nodes
  induction nodes with
  | nil => intro used counter; simp [recommendLoop]
  | cons node rest ih =>
    intro used counter
    rw [recommendLoop]
    cases hb : (selectBest distFn storm available used node).crew with
    | some c =>
      simp only [List.length_cons]
      rw [ih]
      omega
    | none =>
      simp only
      exact ih _ _

/-- Example fixtures: the constant-zero distance oracle and a one-crew,
one-failed-node session. -/
def dist0 : DistFn := fun _ _ _ _ => 0

def crewStandby (cid : String) : Crew :=
  { crew_id := cid, name := cid, status := CrewStatus.standby, lat := 0, lon := 0,
    city := "", specialty := "distribution", assigned_region := none, eta_minutes := none }

def nodeN1 : FailedNode :=
  { id := "N1", lat := 0, lon := 0, load_mw := 100, capacity_mw := 100,
    voltage_kv := 0, weather_zone := "", failure_type := "distribution" }

def exState1 : DispatchState :=
  { assignments := [], crews := [("C1", crewStandby "C1")],
    failed_nodes := [("N1", nodeN1)], repaired_nodes := [],
    id_counter := 0, storm_mode := true }

theorem recommend_exState1_counter :
    (recommend_dispatch dist0 exState1).2.id_counter = 1 := by
  have hideal : idealOf nodeN1 = "distribution" := by
    simp [idealOf, nodeN1, classify_failure]
    norm_num
  have hscore : crewScore dist0 "distribution" nodeN1 (crewStandby "C1") = 1000 := by
    rw [crewScore]
    simp [specialty_match_score, dist0, nodeN1, crewStandby, max_def, min_def]
    norm_num
  have hcrew : (selectBest dist0 true [("C1", crewStandby "C1")] [] nodeN1).crew
      = some (crewStandby "C1") := by
    simp only [selectBest, considerCrew, List.foldl_cons, List.foldl_nil, hideal, hscore]
    rw [if_neg (by simp), if_pos (by norm_num : (-1:Rat) < 1000)]
  have hav : (get_available_crews exState1).map (fun c => (c.crew_id, c))
      = [("C1", crewStandby "C1")] := by
    simp [get_available_crews, exState1, crewStandby]
  have hun : get_unassigned_failed_nodes exState1 = [nodeN1] := by
    simp [get_unassigned_failed_nodes, exState1]
  have hmain : (recommend_dispatch dist0 exState1).2.id_counter
      = (recommendLoop dist0 true [("C1", crewStandby "C1")] [nodeN1] [] 0).2.2 := by
    simp only [recommend_dispatch, hav, hun]
    simp [exState1, List.insertionSort]
  rw [hmain, recommendLoop]
  simp only [hcrew]
  simp [recommendLoop]

/-- Claim C9 as stated: `recommend_dispatch` leaves the entire session
state unchanged. -/
def claimC9 : Prop :=
  ∀ (distFn : DistFn) (st : DispatchState), (recommend_dispatch distFn st).2 = st

/-- C9 counterexample: on a session with one standby crew and one failed
node, `recommend_dispatch` emits one recommendation and thereby advances
the module-level `_id_counter` from 0 to 1, so the session state is not
unchanged. -/
theorem c9_counterexample : ¬ claimC9 := by
  intro h
  have h2 := congrArg DispatchState.id_counter (h dist0 exState1)
  rw [recommend_exState1_counter] at h2
  exact absurd h2 (by norm_num [exState1])

/-- C9 (amended): `recommend_dispatch` leaves assignments, crews, failed
nodes, repaired nodes and the storm flag unchanged, but it advances the
session's assignment-id counter by one per recommended assignment (the
source draws ids from the module-level `_next_id`), so interleaving it
shifts the ids later operations produce. -/
theorem c9_read_only_except_id_counter (distFn : DistFn) (st : DispatchState) :
    (recommend_dispatch distFn st).2.assignments = st.assignments ∧
    (recommend_dispatch distFn st).2.crews = st.crews ∧
    (recommend_dispatch distFn st).2.failed_nodes = st.failed_nodes ∧
    (recommend_dispatch distFn st).2.repaired_nodes = st.repaired_nodes ∧
    (recommend_dispatch distFn st).2.storm_mode = st.storm_mode ∧
    (recommend_dispatch distFn st).2.id_counter
      = st.id_counter + (recommend_dispatch distFn st).1.assignments.length :=
  ⟨rfl, rfl, rfl, rfl, rfl, recommendLoop_counter distFn st.storm_mode _ _ [] st.id_counter⟩

/-! ## C3: `dispatch_crew` validation -/

/-- An already-confirmed EN_ROUTE assignment used in example sessions. -/
def assignEnRoute (aid cid nid : String) : DispatchAssignment :=
  { assignment_id := aid, crew_id := cid, crew_name := cid, target_node_id := nid,
    target_lat := 0, target_lon := 0, distance_km := 0, eta_minutes := 1,
    specialty_match := "exact", match_score := 2, failure_type := "distribution",
    status := CrewStatus.en_route, repair_minutes := 60,
    dispatched_at := some 0, arrived_at := none, completed_at := none }

/-- A session whose only crew carries the legacy DEPLOYED status. -/
def exDeployed : DispatchState :=
  { assignments := [],
    crews := [("C1", { crewStandby "C1" with status := CrewStatus.deployed })],
    failed_nodes := [("N1", nodeN1)], repaired_nodes := [],
    id_counter := 0, storm_mode := true }

/-- A session where node `N1` is already claimed by an EN_ROUTE
assignment of crew `C1`, and crew `C2` is on standby. -/
def exClaimed : DispatchState :=
  { assignments := [("DISP-0001", assignEnRoute "DISP-0001" "C1" "N1")],
    crews := [("C1", { crewStandby "C1" with status := CrewStatus.en_route }),
              ("C2", crewStandby "C2")],
    failed_nodes := [("N1", nodeN1)], repaired_nodes := [],
    id_counter := 1, storm_mode := true }

/-- The invalid-input condition claim C3 asserts `dispatch_crew` rejects:
unknown crew, crew not STANDBY/COMPLETE, unknown target, or target
already claimed by a non-terminal assignment. -/
def c3BadInput (st : DispatchState) (cid nid : String) : Prop :=
  List.lookup cid st.crews = none
  ∨ (∃ c, List.lookup cid st.crews = some c ∧
       c.status ≠ CrewStatus.standby ∧ c.status ≠ CrewStatus.complete)
  ∨ List.lookup nid st.failed_nodes = none
  ∨ (∃ p ∈ st.assignments, p.2.status ≠ CrewStatus.complete ∧ p.2.target_node_id = nid)

/-- Claim C3 as stated: `dispatch_crew` raises exactly on bad input and
otherwise creates an EN_ROUTE assignment. -/
def claimC3 : Prop :=
  ∀ (distFn : DistFn) (st : DispatchState) (now : Rat) (cid nid : String),
    (c3BadInput st cid nid → ∃ e, dispatch_crew distFn st now cid nid = Except.error e) ∧
    (¬ c3BadInput st cid nid → ∃ a st', dispatch_crew distFn st now cid nid
        = Except.ok (a, st') ∧ a.status = CrewStatus.en_route)

/-- C3 counterexample: a DEPLOYED crew (neither STANDBY nor COMPLETE) is
dispatched successfully, and a second crew is dispatched successfully to
a target already claimed by a live assignment — both inputs the claim
says must raise. -/
theorem c3_counterexample :
    (∃ a st', dispatch_crew dist0 exDeployed 0 "C1" "N1" = Except.ok (a, st')) ∧
    (∃ a st', dispatch_crew dist0 exClaimed 0 "C2" "N1" = Except.ok (a, st')) ∧
    ¬ claimC3 := by
  have h1 : ∃ a st', dispatch_crew dist0 exDeployed 0 "C1" "N1" = Except.ok (a, st') :=
    ⟨_, _, rfl⟩
  have h2 : ∃ a st', dispatch_crew dist0 exClaimed 0 "C2" "N1" = Except.ok (a, st') :=
    ⟨_, _, rfl⟩
  refine ⟨h1, h2, ?_⟩
  intro h
  have hbad : c3BadInput exDeployed "C1" "N1" := by
    refine Or.inr (Or.inl ⟨{ crewStandby "C1" with status := CrewStatus.deployed }, ?_, by simp, by simp⟩)
    simp [exDeployed]
  obtain ⟨e, he⟩ := (h dist0 exDeployed 0 "C1" "N1").1 hbad
  obtain ⟨a, st', hok⟩ := h1
  rw [he] at hok
  exact Except.noConfusion hok

/-- C3 (amended): `dispatch_crew` raises an invalid-argument error (and,
the error path performing no mutation, leaves the session unchanged)
exactly when the crew id is unknown, the crew's status is not one of
STANDBY, COMPLETE or DEPLOYED, or the target id is not a tracked failed
node.  It performs no check that the target is unassigned or unrepaired,
so an already-claimed target is accepted again.  On success it creates an
EN_ROUTE assignment stamped with the dispatch time, stores it, moves the
crew to EN_ROUTE and bumps the id counter. -/
theorem c3_dispatch_validation (distFn : DistFn) (st : DispatchState) (now : Rat)
    (cid nid : String) :
    ((∃ a st', dispatch_crew distFn st now cid nid = Except.ok (a, st')) ↔
      ((∃ c, List.lookup cid st.crews = some c ∧
          (c.status = CrewStatus.standby ∨ c.status = CrewStatus.complete
            ∨ c.status = CrewStatus.deployed)) ∧
       (∃ n, List.lookup nid st.failed_nodes = some n))) ∧
    (∀ a st', dispatch_crew distFn st now cid nid = Except.ok (a, st') →
      a.status = CrewStatus.en_route ∧ a.crew_id = cid ∧ a.target_node_id = nid ∧
      a.dispatched_at = some now ∧
      st'.failed_nodes = st.failed_nodes ∧ st'.repaired_nodes = st.repaired_nodes ∧
      st'.storm_mode = st.storm_mode ∧ st'.id_counter = st.id_counter + 1 ∧
      st'.assignments = dictInsert st.assignments a.assignment_id a ∧
      (∃ c, List.lookup cid st.crews = some c ∧
        st'.crews = dictInsert st.crews cid
          { c with status := CrewStatus.en_route, assigned_region := some nid,
                   eta_minutes := some a.eta_minutes })) := by
  constructor
  · constructor
    · rintro ⟨a, st', h⟩
      cases hc : List.lookup cid st.crews with
      | none =>
        simp only [dispatch_crew, hc] at h
        exact Except.noConfusion h
      | some crew =>
        simp only [dispatch_crew, hc] at h
        by_cases hs : crew.status = CrewStatus.standby ∨ crew.status = CrewStatus.complete
            ∨ crew.status = CrewStatus.deployed
        · rw [if_pos hs] at h
          cases hn : List.lookup nid st.failed_nodes with
          | none =>
            simp only [hn] at h
            exact Except.noConfusion h
          | some node => exact ⟨⟨crew, rfl, hs⟩, node, rfl⟩
        · rw [if_neg hs] at h
          exact Except.noConfusion h
    · rintro ⟨⟨crew, hc, hs⟩, node, hn⟩
      cases hres : dispatch_crew distFn st now cid nid with
      | ok r => exact ⟨r.1, r.2, rfl⟩
      | error e =>
        simp only [dispatch_crew, hc] at hres
        rw [if_pos hs] at hres
        simp only [hn] at hres
        exact Except.noConfusion hres
  · intro a st' h
    cases hc : List.lookup cid st.crews with
    | none =>
      simp only [dispatch_crew, hc] at h
      exact Except.noConfusion h
    | some crew =>
      simp only [dispatch_crew, hc] at h
      by_cases hs : crew.status = CrewStatus.standby ∨ crew.status = CrewStatus.complete
          ∨ crew.status = CrewStatus.deployed
      · rw [if_pos hs] at h
        cases hn : List.lookup nid st.failed_nodes with
        | none =>
          simp only [hn] at h
          exact Except.noConfusion h
        | some node =>
          simp only [hn, Except.ok.injEq, Prod.mk.injEq] at h
          obtain ⟨ha, hst⟩ := h
          subst ha
          subst hst
          exact ⟨rfl, rfl, rfl, rfl, rfl, rfl, rfl, rfl, rfl, crew, rfl, rfl⟩
      · rw [if_neg hs] at h
        exact Except.noConfusion h

/-- C3 amended-theorem witness: the success characterisation evaluated on
the concrete one-crew one-node session. -/
theorem c3_dispatch_validation_witness :
    ∃ a st', dispatch_crew dist0 exState1 0 "C1" "N1" = Except.ok (a, st') :=
  (c3_dispatch_validation dist0 exState1 0 "C1" "N1").1.mpr
    ⟨⟨crewStandby "C1", by simp [exState1], Or.inl rfl⟩, nodeN1, by simp [exState1]⟩

/-! ## C2: session invariants under `dispatch_crew` sequences -/

theorem dictInsert_mem {α : Type} (k : String) (v : α) :
    ∀ (l : List (String × α)) (q : String × α), q ∈ dictInsert l k v → q = (k, v) ∨ q ∈ l := by
  intro l
  induction l with
  | nil => intro q hq; simpa [dictInsert] using hq
  | cons p rest ih =>
    intro q hq
    by_cases hk : p.1 = k
    · unfold dictInsert at hq
      rw [if_pos hk] at hq
      rcases List.mem_cons.mp hq with hq | hq
      · exact Or.inl hq
      · exact Or.inr (List.mem_cons_of_mem _ hq)
    · unfold dictInsert at hq
      rw [if_neg hk] at hq
      rcases List.mem_cons.mp hq with hq | hq
      · exact Or.inr (hq ▸ List.mem_cons_self _ _)
      · rcases ih q hq with hq | hq
        · exact Or.inl hq
        · exact Or.inr (List.mem_cons_of_mem _ hq)

theorem lookup_dictInsert_self {α : Type} (k : String) (v : α) :
    ∀ (l : List (String × α)), List.lookup k (dictInsert l k v) = some v := by
  intro l
  induction l with
  | nil => simp [dictInsert, List.lookup]
  | cons p rest ih =>
    by_cases hk : p.1 = k
    · unfold dictInsert
      rw [if_pos hk]
      simp [List.lookup]
    · unfold dictInsert
      rw [if_neg hk]
      have : (k == p.1) = false := by
        rw [beq_eq_false_iff_ne]
        exact fun he => hk he.symm
      simp [List.lookup, this, ih]

theorem lookup_dictInsert_ne {α : Type} (k k' : String) (v : α) (hne : k' ≠ k) :
    ∀ (l : List (String × α)), List.lookup k' (dictInsert l k v) = List.lookup k' l := by
  intro l
  induction l with
  | nil =>
    simp [dictInsert, List.lookup, beq_eq_false_iff_ne.mpr hne]
  | cons p rest ih =>
    by_cases hk : p.1 = k
    · unfold dictInsert
      rw [if_pos hk]
      have h1 : (k' == k) = false := beq_eq_false_iff_ne.mpr hne
      have h2 : (k' == p.1) = false := beq_eq_false_iff_ne.mpr (hk ▸ hne)
      simp [List.lookup, h1, h2]
    · unfold dictInsert
      rw [if_neg hk]
      by_cases hp : k' = p.1
      · simp [List.lookup, hp]
      · simp [List.lookup, beq_eq_false_iff_ne.mpr hp, ih]

theorem dictInsert_keys_mem {α : Type} (k : String) (v : α) :
    ∀ (l : List (String × α)) (x : String),
      x ∈ (dictInsert l k v).map Prod.fst → x = k ∨ x ∈ l.map Prod.fst := by
  intro l x hx
  rw [List.mem_map] at hx
  obtain ⟨q, hq, hqx⟩ := hx
  rcases dictInsert_mem k v l q hq with hq2 | hq2
  · exact Or.inl (by rw [← hqx, hq2])
  · exact Or.inr (by rw [← hqx]; exact List.mem_map_of_mem _ hq2)

theorem dictInsert_keys_nodup {α : Type} (k : String) (v : α) :
    ∀ (l : List (String × α)), (l.map Prod.fst).Nodup → ((dictInsert l k v).map Prod.fst).Nodup := by
  intro l
  induction l with
  | nil => intro _; simp [dictInsert]
  | cons p rest ih =>
    intro hnd
    rw [List.map_cons, List.nodup_cons] at hnd
    by_cases hk : p.1 = k
    · unfold dictInsert
      rw [if_pos hk]
      rw [List.map_cons, List.nodup_cons]
      exact ⟨hk ▸ hnd.1, hnd.2⟩
    · unfold dictInsert
      rw [if_neg hk]
      rw [List.map_cons, List.nodup_cons]
      refine ⟨?_, ih hnd.2⟩
      intro hmem
      rcases dictInsert_keys_mem k v rest p.1 hmem with h | h
      · exact hk h
      · exact hnd.1 h

/-- The structure of a successful `dispatch_crew` call: which inputs it
validated and exactly how it changed the session. -/
theorem dispatch_crew_ok {distFn : DistFn} {st : DispatchState} {now : Rat}
    {cid nid : String} {a : DispatchAssignment} {st' : DispatchState}
    (h : dispatch_crew distFn st now cid nid = Except.ok (a, st')) :
    ∃ crew node,
      List.lookup cid st.crews = some crew ∧
      List.lookup nid st.failed_nodes = some node ∧
      (crew.status = CrewStatus.standby ∨ crew.status = CrewStatus.complete
        ∨ crew.status = CrewStatus.deployed) ∧
      a.assignment_id = dispId (st.id_counter + 1) ∧
      a.status = CrewStatus.en_route ∧ a.crew_id = cid ∧ a.target_node_id = nid ∧
      a.target_lat = node.lat ∧ a.target_lon = node.lon ∧
      a.dispatched_at = some now ∧
      a.eta_minutes = eta_minutes (distFn crew.lat crew.lon node.lat node.lon) st.storm_mode ∧
      st'.assignments = dictInsert st.assignments a.assignment_id a ∧
      st'.crews = dictInsert st.crews cid
        { crew with status := CrewStatus.en_route, assigned_region := some nid,
                    eta_minutes := some a.eta_minutes } ∧
      st'.failed_nodes = st.failed_nodes ∧ st'.repaired_nodes = st.repaired_nodes ∧
      st'.id_counter = st.id_counter + 1 ∧ st'.storm_mode = st.storm_mode := by
  cases hc : List.lookup cid st.crews with
  | none =>
    simp only [dispatch_crew, hc] at h
    exact Except.noConfusion h
  | some crew =>
    simp only [dispatch_crew, hc] at h
    by_cases hs : crew.status = CrewStatus.standby ∨ crew.status = CrewStatus.complete
        ∨ crew.status = CrewStatus.deployed
    · rw [if_pos hs] at h
      cases hn : List.lookup nid st.failed_nodes with
      | none =>
        simp only [hn] at h
        exact Except.noConfusion h
      | some node =>
        simp only [hn, Except.ok.injEq, Prod.mk.injEq] at h
        obtain ⟨ha, hst⟩ := h
        subst ha
        subst hst
        exact ⟨crew, node, rfl, rfl, hs, rfl, rfl, rfl, rfl, rfl, rfl, rfl, rfl, rfl, rfl, rfl, rfl, rfl, rfl⟩
    · rw [if_neg hs] at h
      exact Except.noConfusion h

/-- The success direction of `dispatch_crew`: a tracked crew in an
available status and a tracked node always dispatch. -/
theorem dispatch_crew_succeeds (distFn : DistFn) (st : DispatchState) (now : Rat)
    (cid nid : String) (crew : Crew) (node : FailedNode)
    (hc : List.lookup cid st.crews = some crew)
    (hn : List.lookup nid st.failed_nodes = some node)
    (hs : crew.status = CrewStatus.standby ∨ crew.status = CrewStatus.complete
      ∨ crew.status = CrewStatus.deployed) :
    ∃ a st', dispatch_crew distFn st now cid nid = Except.ok (a, st') := by
  cases hres : dispatch_crew distFn st now cid nid with
  | ok r => exact ⟨r.1, r.2, rfl⟩
  | error e =>
    simp only [dispatch_crew, hc] at hres
    rw [if_pos hs] at hres
    simp only [hn] at hres
    exact Except.noConfusion hres

/-- The inductive session invariant maintained by `dispatch_crew`-only
call sequences: crew and assignment dicts have unique keys, every stored
assignment is still EN_ROUTE with its crew EN_ROUTE, and distinct
assignments carry distinct crews. -/
def DispatchInv (st : DispatchState) : Prop :=
  (st.crews.map Prod.fst).Nodup ∧
  (st.assignments.map Prod.fst).Nodup ∧
  (∀ p ∈ st.assignments, p.2.status = CrewStatus.en_route ∧
     ∃ c, List.lookup p.2.crew_id st.crews = some c ∧ c.status = CrewStatus.en_route) ∧
  (∀ p ∈ st.assignments, ∀ q ∈ st.assignments, p.1 ≠ q.1 → p.2.crew_id ≠ q.2.crew_id)

theorem dispatch_preserves_inv {distFn : DistFn} {st : DispatchState} {now : Rat}
    {cid nid : String} {a : DispatchAssignment} {st' : DispatchState}
    (h : dispatch_crew distFn st now cid nid = Except.ok (a, st'))
    (hinv : DispatchInv st) : DispatchInv st' := by
  obtain ⟨crew, node, hc, hn, hs, haid, hastat, hacrew, hatgt, hatlat, hatlon, hadat, haeta,
    hassign, hcrews, hfail, hrep, hcnt, hstorm⟩ := dispatch_crew_ok h
  have hcrewne : crew.status ≠ CrewStatus.en_route := by
    rcases hs with h1 | h1 | h1 <;> rw [h1] <;> simp
  have hold_ne_cid : ∀ p ∈ st.assignments, p.2.crew_id ≠ cid := by
    intro p hp hpc
    obtain ⟨-, c, hcl, hcs⟩ := hinv.2.2.1 p hp
    rw [hpc, hc] at hcl
    injection hcl with hcl
    rw [← hcl] at hcs
    exact hcrewne hcs
  refine ⟨?_, ?_, ?_, ?_⟩
  · rw [hcrews]
    exact dictInsert_keys_nodup cid _ st.crews hinv.1
  · rw [hassign]
    exact dictInsert_keys_nodup _ _ st.assignments hinv.2.1
  · intro p hp
    rw [hassign] at hp
    rcases dictInsert_mem _ _ st.assignments p hp with hp2 | hp2
    · constructor
      · rw [hp2]
        exact hastat
      · rw [hp2]
        simp only
        rw [hacrew, hcrews]
        exact ⟨_, lookup_dictInsert_self cid _ st.crews, rfl⟩
    · obtain ⟨hstat, c, hcl, hcs⟩ := hinv.2.2.1 p hp2
      refine ⟨hstat, c, ?_, hcs⟩
      rw [hcrews, lookup_dictInsert_ne cid _ _ (hold_ne_cid p hp2) st.crews]
      exact hcl
  · intro p hp q hq hpq
    rw [hassign] at hp hq
    rcases dictInsert_mem _ _ st.assignments p hp with hp2 | hp2 <;>
      rcases dictInsert_mem _ _ st.assignments q hq with hq2 | hq2
    · exact absurd (by rw [hp2, hq2]) hpq
    · rw [hp2]
      simp only [hacrew]
      exact fun he => hold_ne_cid q hq2 he.symm
    · rw [hq2]
      simp only [hacrew]
      exact hold_ne_cid p hp2
    · exact hinv.2.2.2 p hp2 q hq2 hpq

theorem applyDispatch_preserves_inv (distFn : DistFn) (st : DispatchState)
    (call : Rat × String × String) (hinv : DispatchInv st) :
    DispatchInv (applyDispatch distFn st call) := by
  unfold applyDispatch
  cases hres : dispatch_crew distFn st call.1 call.2.1 call.2.2 with
  | ok r => exact dispatch_preserves_inv hres hinv
  | error e => exact hinv

theorem runDispatches_inv (distFn : DistFn) :
    ∀ (calls : List (Rat × String × String)) (st0 : DispatchState),
      DispatchInv st0 → DispatchInv (runDispatches distFn st0 calls) := by
  intro calls
  induction calls with
  | nil => intro st0 h; exact h
  | cons c rest ih =>
    intro st0 h
    exact ih _ (applyDispatch_preserves_inv distFn st0 c h)

/-- Claim C2 as stated: after any sequence of `dispatch_crew` calls on a
freshly loaded session, the non-terminal assignments have pairwise
distinct target nodes and pairwise distinct crews. -/
def claimC2 : Prop :=
  ∀ (distFn : DistFn) (st0 : DispatchState) (calls : List (Rat × String × String)),
    st0.assignments = [] → (st0.crews.map Prod.fst).Nodup →
    (((runDispatches distFn st0 calls).assignments.filter
        (fun p => decide (p.2.status ≠ CrewStatus.complete))).map
          (fun p => p.2.target_node_id)).Nodup ∧
    (((runDispatches distFn st0 calls).assignments.filter
        (fun p => decide (p.2.status ≠ CrewStatus.complete))).map
          (fun p => p.2.crew_id)).Nodup

/-- C2 (amended): after any sequence of `dispatch_crew` calls on a
freshly loaded session, no crew id appears on two non-terminal
assignments — but, `dispatch_crew` not checking whether the target is
already claimed, two non-terminal assignments may share a target node. -/
theorem c2_no_crew_on_two_live_assignments
    (distFn : DistFn) (st0 : DispatchState) (calls : List (Rat × String × String))
    (h0 : st0.assignments = []) (hk : (st0.crews.map Prod.fst).Nodup) :
    (((runDispatches distFn st0 calls).assignments.filter
        (fun p => decide (p.2.status ≠ CrewStatus.complete))).map
          (fun p => p.2.crew_id)).Nodup := by
  have hinv : DispatchInv (runDispatches distFn st0 calls) :=
    runDispatches_inv distFn calls st0 ⟨hk, by simp [h0], by simp [h0], by simp [h0]⟩
  have hpair : (runDispatches distFn st0 calls).assignments.Pairwise
      (fun p q => p.2.crew_id ≠ q.2.crew_id) := by
    have hkeys := List.pairwise_map.mp hinv.2.1
    refine hkeys.imp_of_mem ?_
    intro p q hp hq hne
    exact hinv.2.2.2 p hp q hq hne
  have hfull : ((runDispatches distFn st0 calls).assignments.map
      (fun p => p.2.crew_id)).Nodup := List.pairwise_map.mpr hpair
  exact hfull.sublist ((List.filter_sublist _).map _)

/-- A fresh session with two standby crews and one failed node. -/
def exTwo : DispatchState :=
  { assignments := [], crews := [("C1", crewStandby "C1"), ("C2", crewStandby "C2")],
    failed_nodes := [("N1", nodeN1)], repaired_nodes := [],
    id_counter := 0, storm_mode := true }

/-- C2 counterexample: dispatching crew `C1` and then crew `C2` to the
same failed node `N1` both succeed, leaving two non-terminal assignments
with the same target node — `dispatch_crew` never checks that the target
is unclaimed. -/
theorem c2_counterexample : ¬ claimC2 := by
  intro h
  obtain ⟨a1, s1, h1⟩ := dispatch_crew_succeeds dist0 exTwo 0 "C1" "N1"
    (crewStandby "C1") nodeN1 (by simp [exTwo, List.lookup]) (by simp [exTwo, List.lookup])
    (Or.inl rfl)
  obtain ⟨crew1, node1, hc1, hn1, hs1, haid1, hstat1, hcrew1, htgt1, htlat1, htlon1, hdat1,
    heta1, hassign1, hcrews1, hfail1, hrep1, hcnt1, hstorm1⟩ := dispatch_crew_ok h1
  have hlC2 : List.lookup "C2" s1.crews = some (crewStandby "C2") := by
    rw [hcrews1, lookup_dictInsert_ne _ _ _ (by decide) _]
    simp [exTwo, List.lookup]
  have hlN1 : List.lookup "N1" s1.failed_nodes = some nodeN1 := by
    rw [hfail1]
    simp [exTwo, List.lookup]
  obtain ⟨a2, s2, h2⟩ := dispatch_crew_succeeds dist0 s1 0 "C2" "N1"
    (crewStandby "C2") nodeN1 hlC2 hlN1 (Or.inl rfl)
  obtain ⟨crew2, node2, hc2, hn2, hs2b, haid2, hstat2, hcrew2, htgt2, htlat2, htlon2, hdat2,
    heta2, hassign2, hcrews2, hfail2, hrep2, hcnt2, hstorm2⟩ := dispatch_crew_ok h2
  have hrun : runDispatches dist0 exTwo [(0, "C1", "N1"), (0, "C2", "N1")] = s2 := by
    simp only [runDispatches, List.foldl_cons, List.foldl_nil, applyDispatch, h1, h2]
  have hs1a : s1.assignments = [(a1.assignment_id, a1)] := by
    rw [hassign1]
    simp [exTwo, dictInsert]
  have haidne : a1.assignment_id ≠ a2.assignment_id := by
    rw [haid1, haid2, hcnt1]
    simp only [exTwo]
    decide
  have hs2a : s2.assignments = [(a1.assignment_id, a1), (a2.assignment_id, a2)] := by
    rw [hassign2, hs1a]
    unfold dictInsert
    rw [if_neg haidne]
    rfl
  obtain ⟨htgts, -⟩ := h dist0 exTwo [(0, "C1", "N1"), (0, "C2", "N1")] rfl (by simp [exTwo])
  rw [hrun, hs2a] at htgts
  simp [List.filter_cons, hstat1, hstat2, htgt1, htgt2] at htgts

/-- C2 amended-theorem witness: the crew-uniqueness invariant evaluated
on the concrete two-crew session with no calls. -/
theorem c2_witness :
    (((runDispatches dist0 exTwo []).assignments.filter
        (fun p => decide (p.2.status ≠ CrewStatus.complete))).map
          (fun p => p.2.crew_id)).Nodup :=
  c2_no_crew_on_two_live_assignments dist0 exTwo [] rfl (by simp [exTwo])

/-- C6 witness: instantiation on the empty snapshot. -/
theorem c6_witness :
    ((Graph.mk [] []).nodes.map (fun n => n.id)).Nodup ∧
    ((∀ (fuel it : Nat) st, ∃ ext, (cascadeLoop (Graph.mk [] []) fuel it st).2.1
        = st.2.1 ++ ext) ∧
     (run_cascade (Graph.mk [] []) [] "s" 0 none (fun _ => 0) "A" "B").total_failed_nodes
       = (run_cascade (Graph.mk [] []) [] "s" 0 none (fun _ => 0) "A" "B").failed_node_ids.length ∧
     (run_cascade (Graph.mk [] []) [] "s" 0 none (fun _ => 0) "A" "B").failed_node_ids.toFinset.card
       = (run_cascade (Graph.mk [] []) [] "s" 0 none (fun _ => 0) "A" "B").total_failed_nodes) :=
  ⟨by simp, c6_failed_monotone_counts_agree _ [] "s" 0 none (fun _ => 0) "A" "B" (by simp)⟩

/-- C10 witness: `eta_minutes` at distance zero, and a tick at the very
dispatch instant keeping the assignment EN_ROUTE. -/
theorem c10_witness :
    1 ≤ eta_minutes 0 true ∧
    ((tickOne 0 (assignEnRoute "DISP-0001" "C1" "N1") (crewStandby "C1")).1).status
      = CrewStatus.en_route :=
  ⟨c10_eta_minutes_at_least_one.1 0 true,
   c10_eta_minutes_at_least_one.2.2.2 0 (assignEnRoute "DISP-0001" "C1" "N1")
     (crewStandby "C1") rfl rfl (le_refl 1)⟩

/-! ## C8: crew-position interpolation under `tick` -/

theorem tickOne_en_route (now : Rat) (a : DispatchAssignment) (c : Crew) (t0 : Rat)
    (hstat : a.status = CrewStatus.en_route) (hdat : a.dispatched_at = some t0)
    (hlt : truncInt (now - t0) < a.eta_minutes) :
    tickOne now a c = (a, { c with
      eta_minutes := some (max 0 (a.eta_minutes - truncInt (now - t0))),
      lat := round4 (c.lat + (a.target_lat - c.lat)
        * (min 1 (max 0 ((now - t0) / ((max a.eta_minutes 1 : Int) : Rat))))),
      lon := round4 (c.lon + (a.target_lon - c.lon)
        * (min 1 (max 0 ((now - t0) / ((max a.eta_minutes 1 : Int) : Rat))))) }, false) := by
  have hrem : ¬ ((max 0 (a.eta_minutes - truncInt (now - t0)) : Int) ≤ 0) := by omega
  simp only [tickOne, hstat, hdat, or_true, if_pos, if_true]
  rw [if_neg hrem]

theorem tickState_single (st' : DispatchState) (aid : String) (a : DispatchAssignment)
    (c : Crew) (now : Rat)
    (ha : st'.assignments = [(aid, a)]) (hl : List.lookup a.crew_id st'.crews = some c) :
    tickState st' now = { st' with
      assignments := [(aid, (tickOne now a c).1)],
      crews := dictInsert st'.crews a.crew_id (tickOne now a c).2.1,
      repaired_nodes := if (tickOne now a c).2.2 then setAdd st'.repaired_nodes a.target_node_id
                        else st'.repaired_nodes } := by
  simp only [tickState, ha, List.foldl_cons, List.foldl_nil, hl, List.nil_append]

/-- A distance oracle giving 26/3 km, so that the storm-mode ETA is
exactly 10 minutes, and a session whose failed node sits at latitude 1. -/
def distC : DistFn := fun _ _ _ _ => 26/3

def nodeFar : FailedNode :=
  { id := "N1", lat := 1, lon := 0, load_mw := 100, capacity_mw := 100,
    voltage_kv := 0, weather_zone := "", failure_type := "distribution" }

def exFar : DispatchState :=
  { assignments := [], crews := [("C1", crewStandby "C1")],
    failed_nodes := [("N1", nodeFar)], repaired_nodes := [],
    id_counter := 0, storm_mode := true }

/-- Claim C8 as stated, specialised to its consequence: while the ETA has
not elapsed, the crew position depends only on elapsed time, so an extra
intermediate tick must not change the position observed at a later tick. -/
def claimC8 : Prop :=
  ∀ (distFn : DistFn) (st : DispatchState) (t0 : Rat) (cid nid : String)
    (a : DispatchAssignment) (st' : DispatchState) (now1 now2 : Rat),
    dispatch_crew distFn st t0 cid nid = Except.ok (a, st') →
    t0 ≤ now1 → now1 ≤ now2 → truncInt (now2 - t0) < a.eta_minutes →
    (List.lookup cid (tickState (tickState st' now1) now2).crews).map (fun c => (c.lat, c.lon))
      = (List.lookup cid (tickState st' now2).crews).map (fun c => (c.lat, c.lon))

/-- C8 counterexample: crew at (0,0) dispatched at time 0 toward (1,0)
with ETA 10 minutes.  Ticking once at minute 5 puts the crew at latitude
0.5; ticking at minute 2 and then at minute 5 puts it at latitude 0.6,
because each tick interpolates from the crew's current — already moved —
position, not from the original dispatch position. -/
theorem c8_counterexample : ¬ claimC8 := by
  intro h
  obtain ⟨a, st', hok⟩ := dispatch_crew_succeeds distC exFar 0 "C1" "N1"
    (crewStandby "C1") nodeFar (by simp [exFar, List.lookup]) (by simp [exFar, List.lookup])
    (Or.inl rfl)
  obtain ⟨crew, node, hc, hn, hs, haid, hstat, hcrew, htgt, htlat, htlon, hdat, heta,
    hassign, hcrews, hfail, hrep, hcnt, hstorm⟩ := dispatch_crew_ok hok
  have hcrew_eq : crew = crewStandby "C1" := by
    have h2 := hc
    simp [exFar, List.lookup] at h2
    exact h2.symm
  have hnode_eq : node = nodeFar := by
    have h2 := hn
    simp [exFar, List.lookup] at h2
    exact h2.symm
  subst hcrew_eq
  subst hnode_eq
  have heta10 : a.eta_minutes = 10 := by
    rw [heta]
    norm_num [eta_minutes, distC, crewStandby, nodeFar, exFar, pyRound]
  have htlat1 : a.target_lat = 1 := by
    rw [htlat]
    rfl
  have htlon0 : a.target_lon = 0 := by
    rw [htlon]
    rfl
  have hassign2 : st'.assignments = [(a.assignment_id, a)] := by
    rw [hassign]
    rfl
  have hl : List.lookup a.crew_id st'.crews = some
      { crewStandby "C1" with
          status := CrewStatus.en_route,
          assigned_region := some "N1",
          eta_minutes := some a.eta_minutes } := by
    rw [hcrew, hcrews]
    exact lookup_dictInsert_self _ _ _
  have hlt2 : truncInt (2 - 0) < a.eta_minutes := by
    rw [heta10]
    norm_num [truncInt]
  have hlt5 : truncInt (5 - 0) < a.eta_minutes := by
    rw [heta10]
    norm_num [truncInt]
  have hB := tickState_single st' a.assignment_id a _ 5 hassign2 hl
  rw [tickOne_en_route 5 a _ 0 hstat hdat hlt5] at hB
  rw [hcrew, htlat1, htlon0, heta10] at hB
  have hRHS : (List.lookup "C1" (tickState st' 5).crews).map (fun c => (c.lat, c.lon))
      = some (1/2, 0) := by
    rw [hB]
    simp only [lookup_dictInsert_self, Option.map_some']
    norm_num [crewStandby, truncInt, round4, pyRound, max_def, min_def]
  have hA1 := tickState_single st' a.assignment_id a _ 2 hassign2 hl
  rw [tickOne_en_route 2 a _ 0 hstat hdat hlt2] at hA1
  have ha1 : (tickState st' 2).assignments = [(a.assignment_id, a)] := by
    rw [hA1]
  have hl1 : List.lookup a.crew_id (tickState st' 2).crews = some
      { crewStandby "C1" with
          status := CrewStatus.en_route,
          assigned_region := some "N1",
          eta_minutes := some (max 0 (a.eta_minutes - truncInt (2 - 0))),
          lat := round4 ((crewStandby "C1").lat
            + (a.target_lat - (crewStandby "C1").lat)
              * (min 1 (max 0 ((2 - 0) / ((max a.eta_minutes 1 : Int) : Rat))))),
          lon := round4 ((crewStandby "C1").lon
            + (a.target_lon - (crewStandby "C1").lon)
              * (min 1 (max 0 ((2 - 0) / ((max a.eta_minutes 1 : Int) : Rat))))) } := by
    rw [hA1]
    simp only [hcrew]
    exact lookup_dictInsert_self _ _ _
  have hlat2 : round4 ((crewStandby "C1").lat
      + (a.target_lat - (crewStandby "C1").lat)
        * (min 1 (max 0 ((2 - 0) / ((max a.eta_minutes 1 : Int) : Rat))))) = 1/5 := by
    rw [htlat1, heta10]
    norm_num [crewStandby, round4, pyRound, max_def, min_def]
  have hlon2 : round4 ((crewStandby "C1").lon
      + (a.target_lon - (crewStandby "C1").lon)
        * (min 1 (max 0 ((2 - 0) / ((max a.eta_minutes 1 : Int) : Rat))))) = 0 := by
    rw [htlon0]
    norm_num [crewStandby, round4, pyRound, max_def, min_def]
  rw [hlat2, hlon2] at hl1
  have hA2 := tickState_single (tickState st' 2) a.assignment_id a _ 5 ha1 hl1
  rw [tickOne_en_route 5 a _ 0 hstat hdat hlt5] at hA2
  rw [hcrew, htlat1, htlon0, heta10] at hA2
  have hLHS : (List.lookup "C1" (tickState (tickState st' 2) 5).crews).map
      (fun c => (c.lat, c.lon)) = some (3/5, 0) := by
    rw [hA2]
    simp only [lookup_dictInsert_self, Option.map_some']
    norm_num [crewStandby, truncInt, round4, pyRound, max_def, min_def]
  have hcl := h distC exFar 0 "C1" "N1" a st' 2 5 hok (by norm_num) (by norm_num) hlt5
  rw [hLHS, hRHS] at hcl
  simp only [Option.some.injEq, Prod.mk.injEq] at hcl
  exact absurd hcl.1 (by norm_num)

/-- C8 (amended): each tick while DISPATCHED/EN_ROUTE interpolates from
the crew's current — not original — position (see `tickOne`), so only the
first tick after a dispatch satisfies the claimed formula: starting from
a session with no other assignments, one tick at elapsed time below the
ETA places the crew at the rounded linear interpolation between its
position at dispatch time and the target, proportional to elapsed/ETA.
Later ticks compound from the moved position and the position becomes
schedule-dependent. -/
theorem c8_first_tick_interpolates_from_dispatch_position
    (distFn : DistFn) (st : DispatchState) (t0 : Rat) (cid nid : String)
    (a : DispatchAssignment) (st' : DispatchState) (now : Rat)
    (hok : dispatch_crew distFn st t0 cid nid = Except.ok (a, st'))
    (hempty : st.assignments = [])
    (hlt : truncInt (now - t0) < a.eta_minutes) :
    ∃ crew, List.lookup cid st.crews = some crew ∧
      (List.lookup cid (tickState st' now).crews).map (fun c => (c.lat, c.lon))
        = some (round4 (crew.lat + (a.target_lat - crew.lat)
            * (min 1 (max 0 ((now - t0) / ((max a.eta_minutes 1 : Int) : Rat))))),
          round4 (crew.lon + (a.target_lon - crew.lon)
            * (min 1 (max 0 ((now - t0) / ((max a.eta_minutes 1 : Int) : Rat)))))) := by
  obtain ⟨crew, node, hc, hn, hs, haid, hstat, hcrew, htgt, htlat, htlon, hdat, heta,
    hassign, hcrews, hfail, hrep, hcnt, hstorm⟩ := dispatch_crew_ok hok
  refine ⟨crew, hc, ?_⟩
  have hassign2 : st'.assignments = [(a.assignment_id, a)] := by
    rw [hassign, hempty]
    rfl
  have hl : List.lookup a.crew_id st'.crews = some
      { crew with
          status := CrewStatus.en_route,
          assigned_region := some nid,
          eta_minutes := some a.eta_minutes } := by
    rw [hcrew, hcrews]
    exact lookup_dictInsert_self _ _ _
  have hB := tickState_single st' a.assignment_id a _ now hassign2 hl
  rw [tickOne_en_route now a _ t0 hstat hdat hlt] at hB
  rw [hcrew] at hB
  rw [hB]
  simp only [lookup_dictInsert_self, Option.map_some']

/-- C8 amended-theorem witness: the first tick from the concrete session,
five minutes into a ten-minute drive. -/
theorem c8_first_tick_witness :
    ∃ a st', dispatch_crew distC exFar 0 "C1" "N1" = Except.ok (a, st') ∧
      truncInt ((5:Rat) - 0) < a.eta_minutes ∧
      ∃ crew, List.lookup "C1" exFar.crews = some crew ∧
        (List.lookup "C1" (tickState st' 5).crews).map (fun c => (c.lat, c.lon))
          = some (round4 (crew.lat + (a.target_lat - crew.lat)
              * (min 1 (max 0 ((5 - 0) / ((max a.eta_minutes 1 : Int) : Rat))))),
            round4 (crew.lon + (a.target_lon - crew.lon)
              * (min 1 (max 0 ((5 - 0) / ((max a.eta_minutes 1 : Int) : Rat)))))) := by
  obtain ⟨a, st', hok⟩ := dispatch_crew_succeeds distC exFar 0 "C1" "N1"
    (crewStandby "C1") nodeFar (by simp [exFar, List.lookup]) (by simp [exFar, List.lookup])
    (Or.inl rfl)
  obtain ⟨crew, node, hc, hn, hs, haid, hstat, hcrew, htgt, htlat, htlon, hdat, heta,
    hassign, hcrews, hfail, hrep, hcnt, hstorm⟩ := dispatch_crew_ok hok
  have hnode_eq : node = nodeFar := by
    have h2 := hn
    simp [exFar, List.lookup] at h2
    exact h2.symm
  have hcrew_eq : crew = crewStandby "C1" := by
    have h2 := hc
    simp [exFar, List.lookup] at h2
    exact h2.symm
  subst hnode_eq
  subst hcrew_eq
  have heta10 : a.eta_minutes = 10 := by
    rw [heta]
    norm_num [eta_minutes, distC, crewStandby, nodeFar, exFar, pyRound]
  have hlt5 : truncInt ((5:Rat) - 0) < a.eta_minutes := by
    rw [heta10]
    norm_num [truncInt]
  exact ⟨a, st', hok, hlt5,
    c8_first_tick_interpolates_from_dispatch_position distC exFar 0 "C1" "N1" a st' 5
      hok rfl hlt5⟩

/-! ## C7: greedy scoring of `recommend_dispatch` -/

instance : IsTotal FailedNode (fun a b => b.load_mw ≤ a.load_mw) :=
  ⟨fun a b => le_total b.load_mw a.load_mw⟩

instance : IsTrans FailedNode (fun a b => b.load_mw ≤ a.load_mw) :=
  ⟨fun _ _ _ h1 h2 => le_trans h2 h1⟩

/-- The specialty multiplier exactly as the claim words it (spec side of
the refinement): 2.0 for an exact match, 1.0 for the four adjacency pairs
line_repair↔substation and substation↔distribution (generation has no
partial matches), 0.3 otherwise. -/
def claimSpecialtyMultiplier (crew_specialty ideal : String) : Rat :=
  if crew_specialty = ideal then 2
  else if (crew_specialty, ideal) ∈
      ([("line_repair", "substation"), ("substation", "line_repair"),
        ("substation", "distribution"), ("distribution", "substation")] :
        List (String × String)) then 1
  else 3/10

/-- The claim's score formula, written from its words:
`specialtyMultiplier × max(0.5, min(5.0, load/500)) / (distanceKm + 1) × 1000`. -/
def claimScore (load_mw dist_km : Rat) (crew_specialty ideal : String) : Rat :=
  claimSpecialtyMultiplier crew_specialty ideal
    * max (1/2) (min 5 (load_mw / 500)) / (dist_km + 1) * 1000

theorem specialty_multiplier_refines (cs ideal : String) :
    (specialty_match_score cs ideal).1 = claimSpecialtyMultiplier cs ideal := by
  unfold specialty_match_score claimSpecialtyMultiplier adjacentSkills
  by_cases h0 : cs = ideal
  · simp [h0]
  · by_cases h1 : cs = "line_repair"
    · subst h1
      by_cases h2 : ideal = "substation" <;> simp [h0, h2]
    · by_cases h3 : cs = "substation"
      · subst h3
        by_cases h4 : ideal = "line_repair"
        · simp [h0, h4]
        · by_cases h5 : ideal = "distribution" <;> simp [h0, h1, h4, h5]
      · by_cases h6 : cs = "distribution"
        · subst h6
          by_cases h7 : ideal = "substation" <;> simp [h0, h1, h3, h7]
        · by_cases h8 : cs = "generation"
          · subst h8
            simp [h0]
          · simp [h0, h1, h3, h6, h8]

theorem specialty_multiplier_pos (cs ideal : String) :
    0 < (specialty_match_score cs ideal).1 := by
  unfold specialty_match_score
  split_ifs <;> norm_num

theorem crewScore_gt_neg_one (distFn : DistFn) (ideal : String) (node : FailedNode)
    (crew : Crew) (hd : 0 ≤ distFn crew.lat crew.lon node.lat node.lon) :
    -1 < crewScore distFn ideal node crew := by
  unfold crewScore
  have h1 := specialty_multiplier_pos crew.specialty ideal
  have h2 : (0:Rat) < max (1/2) (min 5 (node.load_mw / 500)) :=
    lt_of_lt_of_le (by norm_num) (le_max_left _ _)
  have h3 : (0:Rat) < distFn crew.lat crew.lon node.lat node.lon + 1 := by linarith
  have h4 : (0:Rat) < (specialty_match_score crew.specialty ideal).1
      * max (1/2) (min 5 (node.load_mw / 500))
      / (distFn crew.lat crew.lon node.lat node.lon + 1) * 1000 := by
    apply mul_pos
    · exact div_pos (mul_pos h1 h2) h3
    · norm_num
  linarith

/-- Invariant of the inner crew loop: after scanning `seen`, either no
candidate was found (all of `seen` already claimed and the score is the
initial −1), or the best choice is an unclaimed seen crew achieving the
maximal score among unclaimed seen crews. -/
def BestInv (distFn : DistFn) (used : List String) (ideal : String) (node : FailedNode)
    (seen : List (String × Crew)) (b : BestChoice) : Prop :=
  (b.crew = none → b.score = -1 ∧ ∀ e ∈ seen, e.1 ∈ used) ∧
  (∀ c, b.crew = some c →
    (∃ e ∈ seen, e.1 ∉ used ∧ e.2 = c) ∧
    b.score = crewScore distFn ideal node c ∧
    ∀ e ∈ seen, e.1 ∉ used → crewScore distFn ideal node e.2 ≤ b.score)

theorem considerCrew_inv (distFn : DistFn) (storm : Bool) (used : List String)
    (ideal : String) (node : FailedNode)
    (hpos : ∀ crew : Crew, -1 < crewScore distFn ideal node crew)
    (seen : List (String × Crew)) (b : BestChoice) (e : String × Crew)
    (h : BestInv distFn used ideal node seen b) :
    BestInv distFn used ideal node (seen ++ [e])
      (considerCrew distFn storm used ideal node b e) := by
  unfold considerCrew
  by_cases hu : e.1 ∈ used
  · rw [if_pos hu]
    constructor
    · intro hn
      obtain ⟨hsc, hall⟩ := h.1 hn
      refine ⟨hsc, ?_⟩
      intro e' he'
      rcases List.mem_append.mp he' with he' | he'
      · exact hall e' he'
      · rw [List.mem_singleton.mp he']
        exact hu
    · intro c hc
      obtain ⟨⟨e', he', hu', hc'⟩, hsc, hmax⟩ := h.2 c hc
      refine ⟨⟨e', List.mem_append_left _ he', hu', hc'⟩, hsc, ?_⟩
      intro e'' he'' hu''
      rcases List.mem_append.mp he'' with he'' | he''
      · exact hmax e'' he'' hu''
      · rw [List.mem_singleton.mp he''] at hu''
        exact absurd hu hu''
  · rw [if_neg hu]
    simp only
    by_cases hlt : b.score < crewScore distFn ideal node e.2
    · rw [if_pos hlt]
      constructor
      · intro hn
        exact Option.noConfusion hn
      · intro c hc
        have hce : e.2 = c := by
          injection hc
        subst hce
        refine ⟨⟨e, List.mem_append_right _ (List.mem_singleton.mpr rfl), hu, rfl⟩, rfl, ?_⟩
        intro e'' he'' hu''
        rcases List.mem_append.mp he'' with he'' | he''
        · cases hb : b.crew with
          | none =>
            obtain ⟨-, hall⟩ := h.1 hb
            exact absurd (hall e'' he'') hu''
          | some c0 =>
            obtain ⟨-, -, hmax⟩ := h.2 c0 hb
            exact le_of_lt (lt_of_le_of_lt (hmax e'' he'' hu'') hlt)
        · rw [List.mem_singleton.mp he'']
    · rw [if_neg hlt]
      constructor
      · intro hn
        obtain ⟨hsc, -⟩ := h.1 hn
        exfalso
        rw [hsc] at hlt
        exact hlt (hpos e.2)
      · intro c hc
        obtain ⟨⟨e', he', hu', hc'⟩, hsc, hmax⟩ := h.2 c hc
        refine ⟨⟨e', List.mem_append_left _ he', hu', hc'⟩, hsc, ?_⟩
        intro e'' he'' hu''
        rcases List.mem_append.mp he'' with he'' | he''
        · exact hmax e'' he'' hu''
        · rw [List.mem_singleton.mp he'']
          exact not_lt.mp hlt

theorem foldl_considerCrew_inv (distFn : DistFn) (storm : Bool) (used : List String)
    (ideal : String) (node : FailedNode)
    (hpos : ∀ crew : Crew, -1 < crewScore distFn ideal node crew) :
    ∀ (L seen : List (String × Crew)) (b : BestChoice),
      BestInv distFn used ideal node seen b →
      BestInv distFn used ideal node (seen ++ L)
        (L.foldl (considerCrew distFn storm used ideal node) b) := by
  intro L
  induction L with
  | nil => intro seen b h; simpa using h
  | cons e L ih =>
    intro seen b h
    have h2 := considerCrew_inv distFn storm used ideal node hpos seen b e h
    have h3 := ih (seen ++ [e]) _ h2
    rw [List.append_assoc] at h3
    exact h3

theorem selectBest_inv (distFn : DistFn) (storm : Bool)
    (available : List (String × Crew)) (used : List String) (node : FailedNode)
    (hpos : ∀ crew : Crew, -1 < crewScore distFn (idealOf node) node crew) :
    BestInv distFn used (idealOf node) node available
      (selectBest distFn storm available used node) := by
  have h0 : BestInv distFn used (idealOf node) node []
      { score := -1, crew := none, dist := 0, eta := 0,
        match_score := 0, match_label := "mismatch" } :=
    ⟨fun _ => ⟨rfl, by simp⟩, fun c hc => Option.noConfusion hc⟩
  simpa using foldl_considerCrew_inv distFn storm used (idealOf node) node hpos
    available [] _ h0

theorem foldl_considerCrew_all_used (distFn : DistFn) (storm : Bool) (used : List String)
    (ideal : String) (node : FailedNode) :
    ∀ (L : List (String × Crew)) (b : BestChoice), (∀ e ∈ L, e.1 ∈ used) →
      L.foldl (considerCrew distFn storm used ideal node) b = b := by
  intro L
  induction L with
  | nil => intro b _; rfl
  | cons e L ih =>
    intro b hall
    simp only [List.foldl_cons]
    rw [show considerCrew distFn storm used ideal node b e = b from by
      unfold considerCrew
      rw [if_pos (hall e (List.mem_cons_self e L))]]
    exact ih b (fun e' he' => hall e' (List.mem_cons_of_mem e he'))

theorem recommendLoop_partition (distFn : DistFn) (storm : Bool)
    (available : List (String × Crew)) :
    ∀ (nodes : List FailedNode) (used : List String) (counter : Nat),
      ((recommendLoop distFn storm available nodes used counter).1.map
          (fun a => a.target_node_id)
        ++ (recommendLoop distFn storm available nodes used counter).2.1.map
          (fun fn => fn.id)).Perm (nodes.map (fun n => n.id)) := by
  intro nodes
  induction nodes with
  | nil => intro used counter; simp [recommendLoop]
  | cons node rest ih =>
    intro used counter
    rw [recommendLoop]
    cases hb : (selectBest distFn storm available used node).crew with
    | some c =>
      simp only [List.map_cons, List.cons_append]
      exact (ih _ _).cons node.id
    | none =>
      simp only [List.map_cons]
      exact List.Perm.trans List.perm_middle ((ih _ _).cons node.id)

theorem recommendLoop_leftover_exhausts (distFn : DistFn) (storm : Bool)
    (available : List (String × Crew))
    (hpos : ∀ (node : FailedNode) (crew : Crew), -1 < crewScore distFn (idealOf node) node crew) :
    ∀ (nodes : List FailedNode) (used : List String) (counter : Nat),
      (recommendLoop distFn storm available nodes used counter).2.1 ≠ [] →
      ∀ e ∈ available,
        e.1 ∈ used ++ (recommendLoop distFn storm available nodes used counter).1.map
          (fun a => a.crew_id) := by
  intro nodes
  induction nodes with
  | nil => intro used counter h; simp [recommendLoop] at h
  | cons node rest ih =>
    intro used counter h
    rw [recommendLoop] at h ⊢
    cases hb : (selectBest distFn storm available used node).crew with
    | some c =>
      simp only [hb] at h ⊢
      intro e he
      have h2 := ih (used ++ [c.crew_id]) (counter + 1) h e he
      simpa [List.append_assoc] using h2
    | none =>
      simp only [hb]
      intro e he
      have hall := (selectBest_inv distFn storm available used node (fun crew => hpos node crew)).1 hb
      exact List.mem_append_left _ (hall.2 e he)

/-- C7: `recommend_dispatch` processes the unassigned failed nodes in
descending order of load (a permutation of the unassigned set sorted by
`load_mw`); the score it optimises is exactly the claim's formula
(`claimScore`, including the 2.0/1.0/0.3 specialty-multiplier table with
the adjacency pairs line_repair↔substation and substation↔distribution);
per node the inner loop yields no crew exactly when every available crew
is already claimed, and otherwise picks an unclaimed available crew of
maximal score; every processed node lands either in the assignments or
in `unassigned_nodes`, and nodes are left unassigned only when all
available crews have been claimed. -/
theorem c7_recommend_greedy_max_score (distFn : DistFn) (st : DispatchState)
    (hd : ∀ la lo la2 lo2, 0 ≤ distFn la lo la2 lo2) :
    List.Sorted (fun a b => b.load_mw ≤ a.load_mw)
      (List.insertionSort (fun a b => b.load_mw ≤ a.load_mw)
        (get_unassigned_failed_nodes st)) ∧
    (List.insertionSort (fun a b => b.load_mw ≤ a.load_mw)
      (get_unassigned_failed_nodes st)).Perm (get_unassigned_failed_nodes st) ∧
    (∀ (ideal : String) (node : FailedNode) (crew : Crew),
      crewScore distFn ideal node crew
        = claimScore node.load_mw (distFn crew.lat crew.lon node.lat node.lon)
            crew.specialty ideal) ∧
    (∀ (used : List String) (node : FailedNode),
      ((selectBest distFn st.storm_mode
          ((get_available_crews st).map (fun c => (c.crew_id, c))) used node).crew = none
        ↔ ∀ e ∈ (get_available_crews st).map (fun c => (c.crew_id, c)), e.1 ∈ used) ∧
      (∀ c, (selectBest distFn st.storm_mode
          ((get_available_crews st).map (fun c => (c.crew_id, c))) used node).crew = some c →
        (∃ e ∈ (get_available_crews st).map (fun c => (c.crew_id, c)),
            e.1 ∉ used ∧ e.2 = c) ∧
        (selectBest distFn st.storm_mode
          ((get_available_crews st).map (fun c => (c.crew_id, c))) used node).score
            = crewScore distFn (idealOf node) node c ∧
        ∀ e ∈ (get_available_crews st).map (fun c => (c.crew_id, c)), e.1 ∉ used →
          crewScore distFn (idealOf node) node e.2 ≤
            (selectBest distFn st.storm_mode
              ((get_available_crews st).map (fun c => (c.crew_id, c))) used node).score)) ∧
    ((recommend_dispatch distFn st).1.assignments.map (fun a => a.target_node_id)
      ++ (recommend_dispatch distFn st).1.unassigned_nodes.map (fun fn => fn.id)).Perm
        ((get_unassigned_failed_nodes st).map (fun n => n.id)) ∧
    ((recommend_dispatch distFn st).1.unassigned_nodes ≠ [] →
      ∀ e ∈ (get_available_crews st).map (fun c => (c.crew_id, c)),
        e.1 ∈ (recommend_dispatch distFn st).1.assignments.map (fun a => a.crew_id)) := by
  have hpos : ∀ (node : FailedNode) (crew : Crew),
      -1 < crewScore distFn (idealOf node) node crew :=
    fun node crew => crewScore_gt_neg_one distFn (idealOf node) node crew (hd _ _ _ _)
  refine ⟨List.sorted_insertionSort _ _, List.perm_insertionSort _ _, ?_, ?_, ?_, ?_⟩
  · intro ideal node crew
    unfold crewScore claimScore
    rw [specialty_multiplier_refines]
  · intro used node
    have hinv := selectBest_inv distFn st.storm_mode
      ((get_available_crews st).map (fun c => (c.crew_id, c))) used node
      (fun crew => hpos node crew)
    constructor
    · constructor
      · intro hn
        exact (hinv.1 hn).2
      · intro hall
        unfold selectBest
        rw [foldl_considerCrew_all_used distFn st.storm_mode used (idealOf node) node _ _ hall]
    · exact hinv.2
  · exact (recommendLoop_partition distFn st.storm_mode _ _ [] st.id_counter).trans
      (List.Perm.map _ (List.perm_insertionSort _ _))
  · intro hne e he
    have h2 := recommendLoop_leftover_exhausts distFn st.storm_mode _ hpos
      (List.insertionSort (fun a b => b.load_mw ≤ a.load_mw) (get_unassigned_failed_nodes st))
      [] st.id_counter hne e he
    simpa using h2

/-- C7 witness: the processing order on the concrete one-crew one-node
session, via the main theorem with a nonnegative distance oracle. -/
theorem c7_witness :
    List.Sorted (fun a b => b.load_mw ≤ a.load_mw)
      (List.insertionSort (fun a b => b.load_mw ≤ a.load_mw)
        (get_unassigned_failed_nodes exState1)) :=
  (c7_recommend_greedy_max_score dist0 exState1 (fun _ _ _ _ => le_refl 0)).1
